import Mathlib

/-!
Verification development for the nilavu repository (research-document
management web application).

This file shallowly embeds the ingestion/analysis pipeline of the repository:
* `src/src/lib/db/schema.ts` — the data model (status enum, table rows);
* `src/src/app/api/upload/route.ts` — the file-upload handler (`uploadPOST`),
  its MIME-type extraction dispatch, and its `generateSummaries`;
* `src/src/app/api/upload/url/route.ts` — the URL-upload handler (`urlPOST`)
  and its `generateSummaries`;
* the analyze-sources handler (`analyzePOST`).

External services (object storage, OpenAI chat completion and transcription,
Unstructured.io partitioning, URL fetching) are modelled as oracle inputs:
each handler is a pure function of the request, the database state and the
oracle outcomes, returning the HTTP response, the list of side-effect events
it performed (in order), and the new database state.
-/

/-- The `data_source_status` enum of `schema.ts` line 5:
`pgEnum('data_source_status', ['pending', 'processing', 'processed', 'failed'])`. -/
inductive DataSourceStatus
  | pending
  | processing
  | processed
  | failed
deriving DecidableEq

/-- The list of values of the `data_source_status` enum, in declaration order. -/
def dataSourceStatusEnum : List DataSourceStatus :=
  [.pending, .processing, .processed, .failed]

/-- The `summary_level` enum of `schema.ts` line 6. -/
inductive SummaryLevel
  | sentence
  | paragraph
  | full
deriving DecidableEq

/-- A row of the `projects` table (only the columns the handlers read). -/
structure ProjectRow where
  id : Nat
  userId : String
deriving DecidableEq

/-- A row of the `data_sources` table.  `metadata` (a jsonb blob of file
size, mime type, scrape info, ...) is not modelled: no handler branches on it. -/
structure DataSourceRow where
  id : Nat
  projectId : Nat
  dsType : String
  name : String
  contentUrl : String
  status : DataSourceStatus
deriving DecidableEq

/-- A row of the `summaries` table. -/
structure SummaryRow where
  id : Nat
  dataSourceId : Nat
  parentId : Option Nat
  content : String
  level : SummaryLevel
deriving DecidableEq

/-- A row of the `synthesis_parameters` table. -/
structure SynthesisParameterRow where
  id : Nat
  projectId : Nat
  name : String
  pType : String
  description : String
  isSystem : Bool
  displayOrder : Nat
deriving DecidableEq

/-- A row of the `synthesis_values` table (its db-generated uuid `id`,
which no handler reads back, is not modelled). -/
structure SynthesisValueRow where
  parameterId : Nat
  dataSourceId : Nat
  extractedValue : String
  confidence : String
  context : String
  isVerified : Bool
deriving DecidableEq

/-- The database state: the tables the ingestion/analysis handlers touch,
plus a counter standing for the uuid generator (`defaultRandom`). -/
structure DB where
  projects : List ProjectRow
  dataSources : List DataSourceRow
  summaries : List SummaryRow
  synthesisParameters : List SynthesisParameterRow
  synthesisValues : List SynthesisValueRow
  nextId : Nat
deriving DecidableEq

/-- One chat-completion request: the system message and the user message
(model name and temperature are constants in the source and carry no
information for the properties proved here). -/
structure ChatCall where
  system : String
  user : String
deriving DecidableEq

/-- Outcome of the chat-completion service for a given call: the content of
`choices[0].message.content` (with the source's `|| ""` fallback folded in),
or a thrown error. -/
def ChatOracle := ChatCall → Except String String

/-- An element returned by the Unstructured.io partition API
(the fields the handler reads: `text` and `category`). -/
structure UElement where
  text : String
  category : String
deriving DecidableEq

/-- Side effects performed by the handlers, in order: database reads/writes,
storage writes and third-party API calls. -/
inductive Event
  | dbSelect (table : String)
  | storageUpload (path : String)
  | whisperCall
  | unstructuredCall
  | fetchUrl (url : String)
  | chatCall (call : ChatCall)
  | analysisChatCall
  | insertDataSource (row : DataSourceRow) (ok : Bool)
  | insertSummary (row : SummaryRow)
  | updateDataSourceStatus (id : Nat) (status : DataSourceStatus)
  | insertSynthesisParameters (rows : List SynthesisParameterRow) (ok : Bool)
  | insertSynthesisValues (rows : List SynthesisValueRow) (ok : Bool)
deriving DecidableEq

/-- The HTTP responses the three handlers can produce. -/
inductive HttpResponse
  | unauthorized
  | badRequest (msg : String)
  | notFound
  | conflict (existingId : Nat) (existingName : String)
  | serverError (msg : String)
  | okUpload (id : Nat) (name : String) (dsType : String) (status : DataSourceStatus)
  | okUrl (id : Nat) (name : String) (dsType : String) (status : DataSourceStatus)
      (extractedLength : Nat)
  | okAnalyze (parametersCreated : Nat) (valuesExtracted : Nat)
deriving DecidableEq

/-- Numeric HTTP status code of a response. -/
def HttpResponse.code : HttpResponse → Nat
  | .unauthorized => 401
  | .badRequest _ => 400
  | .notFound => 404
  | .conflict _ _ => 409
  | .serverError _ => 500
  | .okUpload _ _ _ _ => 200
  | .okUrl _ _ _ _ _ => 200
  | .okAnalyze _ _ => 200

/-- Result of running a handler: the response, the ordered side-effect
trace, and the database state afterwards. -/
structure HandlerResult where
  response : HttpResponse
  events : List Event
  db : DB
deriving DecidableEq

/-- The prompt templates of a route's `generateSummaries`: the system message
and the user-message builder of each of the three chat-completion calls. -/
structure SummaryPrompts where
  sys1 : String
  user1 : String → String
  sys2 : String
  user2 : String → String
  sys3 : String
  user3 : String → String

/-- The prompts of `generateSummaries` in `src/src/app/api/upload/route.ts`
(lines 236-328).  The first user message truncates the document content with
`content.substring(0, 8000)`. -/
def uploadPrompts : SummaryPrompts where
  sys1 := "You are a research analyst. Create a detailed sentence-level summary of the key points in this document. Focus on facts, findings, methodologies, and conclusions."
  user1 := fun content =>
    "Please create a detailed summary of this document:\n\n" ++ content.take 8000
  sys2 := "You are a research analyst. Create a concise paragraph-level summary that captures the main themes and key findings."
  user2 := fun sentenceContent =>
    "Based on this detailed summary, create a shorter paragraph summary:\n\n" ++ sentenceContent
  sys3 := "You are a research analyst. Create a concise, high-level summary in 2-3 sentences that captures the essence of this document."
  user3 := fun paragraphContent =>
    "Create a brief executive summary:\n\n" ++ paragraphContent

/-- The content truncation at the top of the URL route's `generateSummaries`:
`content.length > 12000 ? content.substring(0, 12000) + "..." : content`. -/
def urlTruncate (content : String) : String :=
  if content.length > 12000 then content.take 12000 ++ "..." else content

/-- The prompts of `generateSummaries` in `src/src/app/api/upload/url/route.ts`
(lines 205-301). -/
def urlPrompts : SummaryPrompts where
  sys1 := "You are a research analyst. Create a detailed sentence-level summary of the key points in this web content. Focus on facts, findings, and main arguments."
  user1 := fun content =>
    "Please create a detailed summary of this web content:\n\n" ++ urlTruncate content
  sys2 := "Create a concise paragraph summary that captures the main themes and key points."
  user2 := fun sentenceContent =>
    "Based on this detailed summary, create a shorter paragraph summary:\n\n" ++ sentenceContent
  sys3 := "Create a concise, high-level summary in 2-3 sentences that captures the essence of this content."
  user3 := fun paragraphContent =>
    "Create a brief executive summary:\n\n" ++ paragraphContent

/-- What a run of `generateSummaries` did: its side-effect trace (chat calls
and summary inserts, interleaved in order), the summary rows it inserted, and
the uuid counter afterwards. -/
structure SummaryOutcome where
  events : List Event
  rows : List SummaryRow
  nextId : Nat
deriving DecidableEq

/-- The `try` block of `generateSummaries` (both routes, parametrised by the
prompts): three sequential chat-completion calls, each followed by a summary
insert; the paragraph row's `parent_id` is the sentence row's id and the full
row's `parent_id` is the paragraph row's id.  A failing chat call throws: the
`.error` value carries the side effects already performed at the throw point. -/
def generateSummariesBody (pr : SummaryPrompts) (oracle : ChatOracle)
    (dataSourceId : Nat) (content : String) (nextId : Nat) :
    Except SummaryOutcome SummaryOutcome :=
  let c1 : ChatCall := ⟨pr.sys1, pr.user1 content⟩
  match oracle c1 with
  | .error _ => .error ⟨[.chatCall c1], [], nextId⟩
  | .ok sentenceContent =>
    let sentenceRecord : SummaryRow := ⟨nextId, dataSourceId, none, sentenceContent, .sentence⟩
    let c2 : ChatCall := ⟨pr.sys2, pr.user2 sentenceContent⟩
    match oracle c2 with
    | .error _ =>
      .error ⟨[.chatCall c1, .insertSummary sentenceRecord, .chatCall c2],
        [sentenceRecord], nextId + 1⟩
    | .ok paragraphContent =>
      let paragraphRecord : SummaryRow :=
        ⟨nextId + 1, dataSourceId, some sentenceRecord.id, paragraphContent, .paragraph⟩
      let c3 : ChatCall := ⟨pr.sys3, pr.user3 paragraphContent⟩
      match oracle c3 with
      | .error _ =>
        .error ⟨[.chatCall c1, .insertSummary sentenceRecord, .chatCall c2,
          .insertSummary paragraphRecord, .chatCall c3],
          [sentenceRecord, paragraphRecord], nextId + 2⟩
      | .ok fullContent =>
        let fullRecord : SummaryRow :=
          ⟨nextId + 2, dataSourceId, some paragraphRecord.id, fullContent, .full⟩
        .ok ⟨[.chatCall c1, .insertSummary sentenceRecord, .chatCall c2,
          .insertSummary paragraphRecord, .chatCall c3, .insertSummary fullRecord],
          [sentenceRecord, paragraphRecord, fullRecord], nextId + 3⟩

/-- `generateSummaries`: the body wrapped in the routes' `try/catch` — any
error raised inside is caught (and logged), so the function always returns,
keeping whatever side effects had happened before the throw. -/
def generateSummaries (pr : SummaryPrompts) (oracle : ChatOracle)
    (dataSourceId : Nat) (content : String) (nextId : Nat) : SummaryOutcome :=
  match generateSummariesBody pr oracle dataSourceId content nextId with
  | .ok out => out
  | .error caught => caught

/-- `sub` occurs as a contiguous run inside `l` (JS `String.prototype.includes`
on character lists). -/
def hasInfix (sub : List Char) : List Char → Bool
  | [] => sub.isEmpty
  | c :: rest => sub.isPrefixOf (c :: rest) || hasInfix sub rest

/-- JS `s.includes(sub)`. -/
def strIncludes (s sub : String) : Bool := hasInfix sub.toList s.toList

/-- JS `s.startsWith(pre)`. -/
def strStartsWith (s pre : String) : Bool := pre.toList.isPrefixOf s.toList

/-- JS `s.trim()` (whitespace stripped from both ends). -/
def strTrim (s : String) : String :=
  (((s.toList.dropWhile Char.isWhitespace).reverse.dropWhile Char.isWhitespace).reverse).asString

/-- The sanitisation of the uploaded file name, `route.ts` line 72:
`file.name.replace(/[^a-zA-Z0-9.-]/g, '_')`. -/
def sanitizeChar (c : Char) : Char :=
  if c.isAlphanum || c = '.' || c = '-' then c else '_'

/-- JS `file.name.replace(/[^a-zA-Z0-9.-]/g, '_')`. -/
def sanitizeName (s : String) : String := (s.toList.map sanitizeChar).asString

/-- `getDocumentType` of `src/src/app/api/upload/route.ts` lines 227-234. -/
def getDocumentType (mimeType : String) : String :=
  if mimeType = "application/pdf" then "pdf"
  else if strStartsWith mimeType "audio/" then "audio"
  else if strIncludes mimeType "word" then "docx"
  else if strIncludes mimeType "presentation" then "pptx"
  else if mimeType = "text/plain" then "txt"
  else "document"

/-- The document-class test of the third extraction branch, `route.ts`
lines 121-126: `file.type === 'application/pdf' || file.type.includes('word')
|| file.type.includes('presentation') || file.type.includes('document')`. -/
def isDocMime (mime : String) : Bool :=
  mime = "application/pdf" || strIncludes mime "word" ||
    strIncludes mime "presentation" || strIncludes mime "document"

/-- Which extraction path an uploaded file takes. -/
inductive ExtractionRoute
  | localText
  | speechToText
  | documentPartition
  | placeholder
deriving DecidableEq

/-- The extraction dispatch of the file-upload handler, in the source's
branch order (`route.ts` lines 105-171): `text/plain` first, then `audio/*`,
then the document class, then the fallback placeholder. -/
def extractionRoute (mime : String) : ExtractionRoute :=
  if mime = "text/plain" then .localText
  else if strStartsWith mime "audio/" then .speechToText
  else if isDocMime mime then .documentPartition
  else .placeholder

/-- Text assembled from the Unstructured.io elements, `route.ts` lines
144-150: keep elements with non-blank text, trim them, join with `"\n\n"`. -/
def partitionText (elements : List UElement) : String :=
  String.intercalate "\n\n"
    ((elements.filter (fun e => strTrim e.text ≠ "")).map (fun e => strTrim e.text))

/-- An uploaded file as the handler sees it: name, MIME type (`file.type`)
and the decoded byte content (`content` stands for what
`new TextDecoder().decode(fileBuffer)` yields). -/
structure FileData where
  name : String
  mime : String
  content : String
deriving DecidableEq

/-- Outcomes of the external services the file-upload handler calls. -/
structure UploadOracles where
  now : Nat
  storageUploadFails : Bool
  whisper : Except String String
  unstructured : Except String (List UElement)
  chat : ChatOracle
  insertDataSourceFails : Bool

/-- The text-extraction step of the file-upload handler (`route.ts` lines
105-175), returning the extracted text and the third-party calls made.
A throw from the Whisper transcription reaches the outer `catch` (line 172);
a throw from Unstructured.io is caught by the inner `catch` (line 164); in
both cases the text becomes a bracketed error placeholder. -/
def extractFileText (f : FileData) (o : UploadOracles) : String × List Event :=
  if f.mime = "text/plain" then (f.content, [])
  else if strStartsWith f.mime "audio/" then
    match o.whisper with
    | .ok transcription => (transcription, [.whisperCall])
    | .error msg => ("[Text extraction failed: " ++ msg ++ "]", [.whisperCall])
  else if isDocMime f.mime then
    match o.unstructured with
    | .ok elements => (partitionText elements, [.unstructuredCall])
    | .error msg =>
      ("[Document uploaded but text extraction failed: " ++ msg ++ "]", [.unstructuredCall])
  else
    ("[" ++ f.mime ++ " file - content not extracted. Supported types: PDF, DOCX, PPTX, TXT, MP3, M4A, WAV]",
     [])

/-- The summary-generation guard of the file-upload handler, line 199:
`if (extractedText && extractedText.length > 50)` — the extracted text is
non-empty (JS truthiness) and longer than 50 characters. -/
def shouldSummarize (t : String) : Bool := t != "" && decide (t.length > 50)

/-- The file-upload handler, `POST` of `src/src/app/api/upload/route.ts`
(lines 10-225): auth, request validation, project-ownership check, storage
upload, text extraction, data-source insert with status `processing`,
conditional `generateSummaries` (only when the extracted text is non-empty
and longer than 50 characters), and the final status update to `processed`. -/
def uploadPOST (authUser : Option String) (projectId : Option Nat)
    (file : Option FileData) (db : DB) (o : UploadOracles) : HandlerResult :=
  match authUser with
  | none => ⟨.unauthorized, [], db⟩
  | some userId =>
    match projectId, file with
    | none, _ => ⟨.badRequest "Project ID and file are required", [], db⟩
    | some _, none => ⟨.badRequest "Project ID and file are required", [], db⟩
    | some pid, some f =>
      match db.projects.find? (fun p => p.id == pid && p.userId == userId) with
      | none => ⟨.notFound, [.dbSelect "projects"], db⟩
      | some _ =>
        let fileName :=
          userId ++ "/" ++ toString pid ++ "/" ++ toString o.now ++ "_" ++ sanitizeName f.name
        if o.storageUploadFails then
          ⟨.serverError "Failed to upload file",
           [.dbSelect "projects", .storageUpload fileName], db⟩
        else
          let publicUrl := "storage/documents/" ++ fileName
          let extracted := extractFileText f o
          let row : DataSourceRow :=
            ⟨db.nextId, pid, getDocumentType f.mime, f.name, publicUrl, .processing⟩
          let preEvents := [.dbSelect "projects", .storageUpload fileName] ++ extracted.2
          if o.insertDataSourceFails then
            ⟨.serverError "Failed to create data source record",
             preEvents ++ [.insertDataSource row false], db⟩
          else
            let db1 : DB := { db with
              dataSources := db.dataSources ++ [row], nextId := db.nextId + 1 }
            let so : SummaryOutcome :=
              if shouldSummarize extracted.1 then
                generateSummaries uploadPrompts o.chat row.id extracted.1 db1.nextId
              else ⟨[], [], db1.nextId⟩
            let db2 : DB := { db1 with
              summaries := db1.summaries ++ so.rows, nextId := so.nextId }
            let db3 : DB := { db2 with
              dataSources := db2.dataSources.map
                (fun r => if r.id == row.id then { r with status := .processed } else r) }
            ⟨.okUpload row.id row.name row.dsType .processed,
             preEvents ++ [.insertDataSource row true] ++ so.events ++
               [.updateDataSourceStatus row.id .processed],
             db3⟩

/-- PostgREST `.single()`: the `data` field is the row when the query
returned exactly one row; with zero or several rows it is null (the query
error is ignored by the caller at `url/route.ts` line 58). -/
def singleRow {α : Type} : List α → Option α
  | [x] => some x
  | _ => none

/-- The fetched-and-parsed webpage: the title chosen by the fallback chain of
`url/route.ts` lines 96-99 and the whitespace-normalised text that the
cheerio content-selector extraction (lines 101-133) produced. -/
structure FetchedPage where
  title : String
  extractedText : String
deriving DecidableEq

/-- Outcomes of the external interactions of the URL-upload handler.
`urlParses` is the outcome of `new URL(url)` (line 35); `fetched` abstracts
the `fetch` of the page plus the cheerio extraction (lines 80-142), whose
throw is caught at line 143 and turned into a 400 response. -/
structure UrlOracles where
  urlParses : Bool
  fetched : Except String FetchedPage
  chat : ChatOracle
  insertDataSourceFails : Bool

/-- The URL-upload handler, `POST` of `src/src/app/api/upload/url/route.ts`
(lines 9-203): auth, validation, project-ownership check, duplicate-URL
check (409), fetch and content extraction (400 on failure or on fewer than
50 characters), data-source insert with status `processing`, unconditional
`generateSummaries`, and the final status update to `processed`. -/
def urlPOST (authUser : Option String) (body : Option (Nat × String))
    (db : DB) (o : UrlOracles) : HandlerResult :=
  match authUser with
  | none => ⟨.unauthorized, [], db⟩
  | some userId =>
    match body with
    | none => ⟨.badRequest "Project ID and URL are required", [], db⟩
    | some (pid, url) =>
      if !o.urlParses then ⟨.badRequest "Invalid URL format", [], db⟩
      else
        match db.projects.find? (fun p => p.id == pid && p.userId == userId) with
        | none => ⟨.notFound, [.dbSelect "projects"], db⟩
        | some _ =>
          let sel : List Event := [.dbSelect "projects", .dbSelect "data_sources"]
          match singleRow (db.dataSources.filter
              (fun s => s.projectId == pid && s.contentUrl == url)) with
          | some existingSource =>
            ⟨.conflict existingSource.id existingSource.name, sel, db⟩
          | none =>
            match o.fetched with
            | .error msg =>
              ⟨.badRequest ("Failed to fetch URL: " ++ msg), sel ++ [.fetchUrl url], db⟩
            | .ok page =>
              if page.extractedText == "" || page.extractedText.length < 50 then
                ⟨.badRequest "Could not extract meaningful content from this URL",
                 sel ++ [.fetchUrl url], db⟩
              else
                let row : DataSourceRow :=
                  ⟨db.nextId, pid, "url", page.title, url, .processing⟩
                if o.insertDataSourceFails then
                  ⟨.serverError "Failed to create data source record",
                   sel ++ [.fetchUrl url, .insertDataSource row false], db⟩
                else
                  let db1 : DB := { db with
                    dataSources := db.dataSources ++ [row], nextId := db.nextId + 1 }
                  let so : SummaryOutcome :=
                    generateSummaries urlPrompts o.chat row.id page.extractedText db1.nextId
                  let db2 : DB := { db1 with
                    summaries := db1.summaries ++ so.rows, nextId := so.nextId }
                  let db3 : DB := { db2 with
                    dataSources := db2.dataSources.map
                      (fun r => if r.id == row.id then { r with status := .processed } else r) }
                  ⟨.okUrl row.id row.name "url" .processed page.extractedText.length,
                   sel ++ [.fetchUrl url, .insertDataSource row true] ++ so.events ++
                     [.updateDataSourceStatus row.id .processed],
                   db3⟩

/-- One suggested parameter from the model's JSON answer in the
analyze-sources handler (the fields the handler inserts; the unused
`importance` score is not modelled). -/
structure SuggestedParameter where
  name : String
  pType : String
  description : String
deriving DecidableEq

/-- One extracted cell from the model's JSON answer (`value`, `confidence`,
`context`; the numeric confidence is carried as an uninterpreted scalar). -/
structure ExtractedCell where
  value : String
  confidence : String
  context : String
deriving DecidableEq

/-- The parsed JSON answer of the analysis model: the suggested parameters,
and per data-source id a list of (parameter name, cell) pairs; a cell can be
null (`valueData` falsy at line 168 of the handler). -/
structure AnalysisResult where
  suggestedParameters : List SuggestedParameter
  extractedValues : List (Nat × List (String × Option ExtractedCell))
deriving DecidableEq

/-- `parametersToInsert` of the analyze-sources handler (lines 144-151):
one `synthesis_parameters` row per suggested parameter, with `is_system`
true and `display_order` equal to the parameter's index in the list. -/
def parametersToInsert (pid startId : Nat)
    (ps : List SuggestedParameter) : List SynthesisParameterRow :=
  ps.enum.map (fun ip =>
    ⟨startId + ip.1, pid, ip.2.name, ip.2.pType, ip.2.description, true, ip.1⟩)

/-- `valuesToInsert` of the analyze-sources handler (lines 164-179): for each
extracted value whose parameter name matches (`find` by exact name equality)
an inserted parameter and whose cell is present, one `synthesis_values` row
with `is_verified` false; all other cells produce no row. -/
def valuesToInsert (insertedParameters : List SynthesisParameterRow)
    (extractedValues : List (Nat × List (String × Option ExtractedCell))) :
    List SynthesisValueRow :=
  (extractedValues.map (fun dsv =>
    dsv.2.filterMap (fun nv =>
      match insertedParameters.find? (fun p => p.name == nv.1), nv.2 with
      | some p, some cell =>
        some ⟨p.id, dsv.1, cell.value, cell.confidence, cell.context, false⟩
      | _, _ => none))).flatten

/-- The data sources the analyze-sources handler reads (lines 42-49): the
project's data sources whose status is `processed`. -/
def analyzeSources (db : DB) (pid : Nat) : List DataSourceRow :=
  db.dataSources.filter (fun s => s.projectId == pid && s.status == .processed)

/-- Outcomes of the external interactions of the analyze-sources handler.
`chat` is the chat-completion call (`.ok none` models a response with no
content, which makes the handler throw "No response from OpenAI");
`parse` is `JSON.parse` plus the shape of the parsed object. -/
structure AnalyzeOracles where
  chat : Except String (Option String)
  parse : String → Option AnalysisResult
  paramInsertFails : Bool
  valueInsertFails : Bool

/-- The analyze-sources handler (the repository's analyze-sources route,
`src/unnamed/part_005`, lines 14-204): auth, validation, project-ownership
check, selection of the project's processed data sources (400 when none),
one chat-completion call, JSON parsing of its answer (a parse failure
throws and yields a 500), bulk insert of the suggested parameters (failure
throws, 500), then bulk insert of the matching extracted values (failure
only logged), and a 200 with the counts.  The prompt string built from the
source summaries is not modelled; no claim depends on its text. -/
def analyzePOST (authUser : Option String) (projectId : Option Nat)
    (db : DB) (o : AnalyzeOracles) : HandlerResult :=
  match authUser with
  | none => ⟨.unauthorized, [], db⟩
  | some userId =>
    match projectId with
    | none => ⟨.badRequest "Project ID required", [], db⟩
    | some pid =>
      match db.projects.find? (fun p => p.id == pid && p.userId == userId) with
      | none => ⟨.notFound, [.dbSelect "projects"], db⟩
      | some _ =>
        let sel : List Event := [.dbSelect "projects", .dbSelect "data_sources"]
        if (analyzeSources db pid).isEmpty then
          ⟨.badRequest "No processed sources found", sel, db⟩
        else
          match o.chat with
          | .error msg => ⟨.serverError msg, sel ++ [.analysisChatCall], db⟩
          | .ok none =>
            ⟨.serverError "No response from OpenAI", sel ++ [.analysisChatCall], db⟩
          | .ok (some response) =>
            match o.parse response with
            | none =>
              ⟨.serverError "Invalid response format from AI",
               sel ++ [.analysisChatCall], db⟩
            | some analysisResult =>
              let params :=
                parametersToInsert pid db.nextId analysisResult.suggestedParameters
              if o.paramInsertFails then
                ⟨.serverError "Failed to save parameters",
                 sel ++ [.analysisChatCall, .insertSynthesisParameters params false], db⟩
              else
                let db1 : DB := { db with
                  synthesisParameters := db.synthesisParameters ++ params,
                  nextId := db.nextId + params.length }
                let vals := valuesToInsert params analysisResult.extractedValues
                if vals.isEmpty then
                  ⟨.okAnalyze params.length vals.length,
                   sel ++ [.analysisChatCall, .insertSynthesisParameters params true],
                   db1⟩
                else if o.valueInsertFails then
                  ⟨.okAnalyze params.length vals.length,
                   sel ++ [.analysisChatCall, .insertSynthesisParameters params true,
                     .insertSynthesisValues vals false],
                   db1⟩
                else
                  ⟨.okAnalyze params.length vals.length,
                   sel ++ [.analysisChatCall, .insertSynthesisParameters params true,
                     .insertSynthesisValues vals true],
                   { db1 with synthesisValues := db1.synthesisValues ++ vals }⟩

/-- Events of the summary-generation phase: chat calls and summary inserts. -/
def summaryPhaseEvent : Event → Bool
  | .chatCall _ => true
  | .insertSummary _ => true
  | _ => false

/-- Events of the text-extraction phase of the file-upload handler. -/
def extractionCallEvent : Event → Bool
  | .whisperCall => true
  | .unstructuredCall => true
  | _ => false

/-- Writes to the `synthesis_parameters` or `synthesis_values` tables. -/
def isSynthesisWrite : Event → Bool
  | .insertSynthesisParameters _ _ => true
  | .insertSynthesisValues _ _ => true
  | _ => false

/-- Every status value this event writes to a data source is `processing`
for an insert and `processed` for an update. -/
def statusWriteOk : Event → Bool
  | .insertDataSource row _ => row.status == .processing
  | .updateDataSourceStatus _ s => s == .processed
  | _ => true

/-- This event writes the status value `s` to a data source. -/
def writesStatus : Event → DataSourceStatus → Bool
  | .insertDataSource row _, s => row.status == s
  | .updateDataSourceStatus _ s0, s => s0 == s
  | _, _ => false

/-- The chat-completion calls recorded in a trace, in order. -/
def chatCallsOf (es : List Event) : List ChatCall :=
  es.filterMap (fun e => match e with | .chatCall c => some c | _ => none)

/-- The event is a chat-completion call. -/
def isChatEvent : Event → Bool
  | .chatCall _ => true
  | _ => false

/-- The event is a status update to `processed`. -/
def isUpdateProcessed : Event → Bool
  | .updateDataSourceStatus _ s => s == .processed
  | _ => false

/-- The success path of the file-upload handler, written out explicitly
(proved equal to `uploadPOST` on that path in `uploadPOST_success_eq`). -/
def uploadSuccess (userId : String) (pid : Nat) (f : FileData) (db : DB)
    (o : UploadOracles) : HandlerResult :=
  let fileName :=
    userId ++ "/" ++ toString pid ++ "/" ++ toString o.now ++ "_" ++ sanitizeName f.name
  let extracted := extractFileText f o
  let row : DataSourceRow :=
    ⟨db.nextId, pid, getDocumentType f.mime, f.name,
     "storage/documents/" ++ fileName, .processing⟩
  let db1 : DB := { db with dataSources := db.dataSources ++ [row], nextId := db.nextId + 1 }
  let so : SummaryOutcome :=
    if shouldSummarize extracted.1 then
      generateSummaries uploadPrompts o.chat row.id extracted.1 db1.nextId
    else ⟨[], [], db1.nextId⟩
  let db2 : DB := { db1 with summaries := db1.summaries ++ so.rows, nextId := so.nextId }
  let db3 : DB := { db2 with
    dataSources := db2.dataSources.map
      (fun r => if r.id == row.id then { r with status := .processed } else r) }
  ⟨.okUpload row.id row.name row.dsType .processed,
   [.dbSelect "projects", .storageUpload fileName] ++ extracted.2 ++
     [.insertDataSource row true] ++ so.events ++
     [.updateDataSourceStatus row.id .processed],
   db3⟩

/-- The success path of the URL-upload handler, written out explicitly
(proved equal to `urlPOST` on that path in `urlPOST_success_eq`). -/
def urlSuccess (pid : Nat) (url : String) (page : FetchedPage) (db : DB)
    (o : UrlOracles) : HandlerResult :=
  let row : DataSourceRow := ⟨db.nextId, pid, "url", page.title, url, .processing⟩
  let db1 : DB := { db with dataSources := db.dataSources ++ [row], nextId := db.nextId + 1 }
  let so : SummaryOutcome :=
    generateSummaries urlPrompts o.chat row.id page.extractedText db1.nextId
  let db2 : DB := { db1 with summaries := db1.summaries ++ so.rows, nextId := so.nextId }
  let db3 : DB := { db2 with
    dataSources := db2.dataSources.map
      (fun r => if r.id == row.id then { r with status := .processed } else r) }
  ⟨.okUrl row.id row.name "url" .processed page.extractedText.length,
   [.dbSelect "projects", .dbSelect "data_sources", .fetchUrl url,
    .insertDataSource row true] ++ so.events ++
     [.updateDataSourceStatus row.id .processed],
   db3⟩

/-- A concrete plain-text upload used by witnesses. -/
def sampleFile : FileData :=
  ⟨"a b.txt", "text/plain",
   "0123456789012345678901234567890123456789012345678901234567890"⟩

/-- A concrete database with one project, used by witnesses. -/
def sampleDB : DB := ⟨[⟨1, "u"⟩], [], [], [], [], 10⟩

/-- A concrete oracle assignment for the file-upload handler, everything
succeeding, used by witnesses. -/
def sampleUploadOracles : UploadOracles :=
  ⟨5, false, .ok "", .ok [], fun c => .ok ("S" ++ c.system.take 1), false⟩

/-- The data-source row `sampleFile`'s successful upload inserts. -/
def sampleRow : DataSourceRow :=
  ⟨10, 1, "txt", "a b.txt", "storage/documents/u/1/5_a_b.txt", .processing⟩

/-- The extraction dispatch as claim C5 words it, in the claim's listing
order: `audio/*` files go to speech-to-text, PDF/Word/presentation/document
files to the document-partitioning service, `text/plain` is decoded locally,
and every other MIME type gets the placeholder.  (Modelled from the claim's
wording, for comparison with the source-order `extractionRoute`.) -/
def claimRoute (mime : String) : ExtractionRoute :=
  if strStartsWith mime "audio/" then .speechToText
  else if isDocMime mime then .documentPartition
  else if mime = "text/plain" then .localText
  else .placeholder

/-- The extraction behaviour claim C5 describes, dispatched on `claimRoute`:
transcription via the speech-to-text service for audio, partitioning via the
document service for documents, a local decode with no third-party call for
plain text, and a placeholder string with no call otherwise. -/
def claimExtractBehavior (f : FileData) (o : UploadOracles) : String × List Event :=
  match claimRoute f.mime with
  | .localText => (f.content, [])
  | .speechToText =>
    match o.whisper with
    | .ok transcription => (transcription, [.whisperCall])
    | .error msg => ("[Text extraction failed: " ++ msg ++ "]", [.whisperCall])
  | .documentPartition =>
    match o.unstructured with
    | .ok elements => (partitionText elements, [.unstructuredCall])
    | .error msg =>
      ("[Document uploaded but text extraction failed: " ++ msg ++ "]", [.unstructuredCall])
  | .placeholder =>
    ("[" ++ f.mime ++ " file - content not extracted. Supported types: PDF, DOCX, PPTX, TXT, MP3, M4A, WAV]",
     [])

/-- A concrete audio upload whose transcription call fails, used by
witnesses. -/
def wAudio : FileData := ⟨"t.mp3", "audio/mpeg", ""⟩

/-- Oracles for `wAudio`: the speech-to-text call throws, everything else
succeeds. -/
def wAudioOracles : UploadOracles :=
  ⟨5, false, .error "boom", .ok [], fun _ => .ok "S", false⟩

/-- The event is a URL fetch. -/
def isFetchEvent : Event → Bool
  | .fetchUrl _ => true
  | _ => false

/-- A database in which the same URL is already present twice in project 1. -/
def dupDB : DB :=
  ⟨[⟨1, "u"⟩],
   [⟨20, 1, "url", "A", "http://x", .processed⟩,
    ⟨21, 1, "url", "B", "http://x", .processed⟩],
   [], [], [], 30⟩

/-- A database in which the URL is present exactly once in project 1. -/
def oneDupDB : DB :=
  ⟨[⟨1, "u"⟩], [⟨20, 1, "url", "A", "http://x", .processed⟩], [], [], [], 30⟩

/-- URL-route oracles with a successful fetch of a long page. -/
def dupUrlOracles : UrlOracles :=
  ⟨true,
   .ok ⟨"Page", "0123456789012345678901234567890123456789012345678901234567890"⟩,
   fun _ => .ok "S", false⟩

/-- A concrete parsed analysis answer: two suggested parameters and, for
data source 20, three cells — one matching with a value, one whose name
matches no parameter, one matching but null. -/
def wAnalysisResult : AnalysisResult :=
  ⟨[⟨"Year", "number", "publication year"⟩, ⟨"Author", "text", "first author"⟩],
   [(20, [("Year", some ⟨"2021", "0.9", "published 2021"⟩),
          ("Venue", some ⟨"X", "0.5", "venue X"⟩),
          ("Author", none)])]⟩

/-- Concrete analyze-sources oracles: the chat call answers, the answer
parses to `wAnalysisResult`, both inserts succeed. -/
def wAnalyzeOracles : AnalyzeOracles :=
  ⟨.ok (some "resp"), fun _ => some wAnalysisResult, false, false⟩

theorem generateSummaries_events_kinds (pr : SummaryPrompts) (oracle : ChatOracle)
    (dataSourceId : Nat) (content : String) (nextId : Nat) :
    ∀ e ∈ (generateSummaries pr oracle dataSourceId content nextId).events,
      summaryPhaseEvent e = true := by
  intro e he
  simp only [generateSummaries, generateSummariesBody] at he
  rcases h1 : oracle ⟨pr.sys1, pr.user1 content⟩ with m1 | s1 <;> rw [h1] at he <;>
    simp only [] at he
  · simp only [List.mem_singleton] at he
    subst he; rfl
  · rcases h2 : oracle ⟨pr.sys2, pr.user2 s1⟩ with m2 | s2 <;> rw [h2] at he <;>
      simp only [] at he
    · simp only [List.mem_cons, List.not_mem_nil, or_false] at he
      rcases he with he | he | he <;> subst he <;> rfl
    · rcases h3 : oracle ⟨pr.sys3, pr.user3 s2⟩ with m3 | s3 <;> rw [h3] at he <;>
        simp only [] at he <;>
        simp only [List.mem_cons, List.not_mem_nil, or_false] at he
      · rcases he with he | he | he | he | he <;> subst he <;> rfl
      · rcases he with he | he | he | he | he | he <;> subst he <;> rfl

theorem extractFileText_events_kinds (f : FileData) (o : UploadOracles) :
    ∀ e ∈ (extractFileText f o).2, extractionCallEvent e = true := by
  intro e he
  simp only [extractFileText] at he
  split at he
  · simp at he
  · split at he
    · rcases hw : o.whisper with m | t <;> rw [hw] at he <;> simp at he <;>
        subst he <;> rfl
    · split at he
      · rcases hu : o.unstructured with m | els <;> rw [hu] at he <;> simp at he <;>
          subst he <;> rfl
      · simp at he

/-- Claim C1: for every data source whose extracted text reaches summary
generation (and whose three chat calls succeed), `generateSummaries` makes
exactly three sequential chat-completion calls with straight-line chaining —
the first call's input is the extracted document text, the second call's
input is the first call's output, the third call's input is the second
call's output — and inserts exactly one summary row per call at levels
`sentence`, `paragraph` and `full`, the `paragraph` row's `parent_id` being
the `sentence` row's id and the `full` row's `parent_id` the `paragraph`
row's id.  Stated for the prompts of both the file-upload and the URL route
(`pr` is arbitrary). -/
theorem generateSummaries_three_call_chain (pr : SummaryPrompts)
    (oracle : ChatOracle) (dataSourceId : Nat) (content : String) (nextId : Nat)
    (out : SummaryOutcome)
    (hok : generateSummariesBody pr oracle dataSourceId content nextId = .ok out) :
    ∃ s1 s2 s3 : String,
      oracle ⟨pr.sys1, pr.user1 content⟩ = .ok s1 ∧
      oracle ⟨pr.sys2, pr.user2 s1⟩ = .ok s2 ∧
      oracle ⟨pr.sys3, pr.user3 s2⟩ = .ok s3 ∧
      generateSummaries pr oracle dataSourceId content nextId = out ∧
      out.events =
        [.chatCall ⟨pr.sys1, pr.user1 content⟩,
         .insertSummary ⟨nextId, dataSourceId, none, s1, .sentence⟩,
         .chatCall ⟨pr.sys2, pr.user2 s1⟩,
         .insertSummary ⟨nextId + 1, dataSourceId, some nextId, s2, .paragraph⟩,
         .chatCall ⟨pr.sys3, pr.user3 s2⟩,
         .insertSummary ⟨nextId + 2, dataSourceId, some (nextId + 1), s3, .full⟩] ∧
      out.rows =
        [⟨nextId, dataSourceId, none, s1, .sentence⟩,
         ⟨nextId + 1, dataSourceId, some nextId, s2, .paragraph⟩,
         ⟨nextId + 2, dataSourceId, some (nextId + 1), s3, .full⟩] := by
  simp only [generateSummariesBody] at hok
  rcases h1 : oracle ⟨pr.sys1, pr.user1 content⟩ with m1 | s1 <;> rw [h1] at hok <;>
    simp only [] at hok
  · exact absurd hok (by simp)
  · rcases h2 : oracle ⟨pr.sys2, pr.user2 s1⟩ with m2 | s2 <;> rw [h2] at hok <;>
      simp only [] at hok
    · exact absurd hok (by simp)
    · rcases h3 : oracle ⟨pr.sys3, pr.user3 s2⟩ with m3 | s3 <;> rw [h3] at hok <;>
        simp only [] at hok
      · exact absurd hok (by simp)
      · simp only [Except.ok.injEq] at hok
        subst hok
        refine ⟨s1, s2, s3, rfl, h2, h3, ?_, rfl, rfl⟩
        simp only [generateSummaries, generateSummariesBody, h1, h2, h3]

/-- Witness for `generateSummaries_three_call_chain`: a concrete oracle that
answers every call, run on the file-upload prompts. -/
theorem generateSummaries_three_call_chain_witness :
    ∃ s1 s2 s3 : String,
      (fun c : ChatCall => (.ok ("answer to " ++ c.user) : Except String String))
          ⟨uploadPrompts.sys1, uploadPrompts.user1 "some document text"⟩ = .ok s1 ∧
      (fun c : ChatCall => (.ok ("answer to " ++ c.user) : Except String String))
          ⟨uploadPrompts.sys2, uploadPrompts.user2 s1⟩ = .ok s2 ∧
      (fun c : ChatCall => (.ok ("answer to " ++ c.user) : Except String String))
          ⟨uploadPrompts.sys3, uploadPrompts.user3 s2⟩ = .ok s3 ∧
      generateSummaries uploadPrompts
          (fun c => .ok ("answer to " ++ c.user)) 7 "some document text" 100 =
        generateSummaries uploadPrompts
          (fun c => .ok ("answer to " ++ c.user)) 7 "some document text" 100 ∧
      (generateSummaries uploadPrompts
          (fun c => .ok ("answer to " ++ c.user)) 7 "some document text" 100).events =
        [.chatCall ⟨uploadPrompts.sys1, uploadPrompts.user1 "some document text"⟩,
         .insertSummary ⟨100, 7, none, s1, .sentence⟩,
         .chatCall ⟨uploadPrompts.sys2, uploadPrompts.user2 s1⟩,
         .insertSummary ⟨101, 7, some 100, s2, .paragraph⟩,
         .chatCall ⟨uploadPrompts.sys3, uploadPrompts.user3 s2⟩,
         .insertSummary ⟨102, 7, some 101, s3, .full⟩] ∧
      (generateSummaries uploadPrompts
          (fun c => .ok ("answer to " ++ c.user)) 7 "some document text" 100).rows =
        [⟨100, 7, none, s1, .sentence⟩,
         ⟨101, 7, some 100, s2, .paragraph⟩,
         ⟨102, 7, some 101, s3, .full⟩] := by
  have h := generateSummaries_three_call_chain uploadPrompts
    (fun c => .ok ("answer to " ++ c.user)) 7 "some document text" 100
    (generateSummaries uploadPrompts
      (fun c => .ok ("answer to " ++ c.user)) 7 "some document text" 100) (by rfl)
  exact h

theorem generateSummariesBody_error_cases (pr : SummaryPrompts) (oracle : ChatOracle)
    (dataSourceId : Nat) (content : String) (nextId : Nat) (caught : SummaryOutcome)
    (herr : generateSummariesBody pr oracle dataSourceId content nextId = .error caught) :
    generateSummaries pr oracle dataSourceId content nextId = caught ∧
      (caught.events = [.chatCall ⟨pr.sys1, pr.user1 content⟩] ∧ caught.rows = [] ∨
       (∃ s1, oracle ⟨pr.sys1, pr.user1 content⟩ = .ok s1 ∧
         caught.events =
           [.chatCall ⟨pr.sys1, pr.user1 content⟩,
            .insertSummary ⟨nextId, dataSourceId, none, s1, .sentence⟩,
            .chatCall ⟨pr.sys2, pr.user2 s1⟩] ∧
         caught.rows = [⟨nextId, dataSourceId, none, s1, .sentence⟩]) ∨
       (∃ s1 s2, oracle ⟨pr.sys1, pr.user1 content⟩ = .ok s1 ∧
         oracle ⟨pr.sys2, pr.user2 s1⟩ = .ok s2 ∧
         caught.events =
           [.chatCall ⟨pr.sys1, pr.user1 content⟩,
            .insertSummary ⟨nextId, dataSourceId, none, s1, .sentence⟩,
            .chatCall ⟨pr.sys2, pr.user2 s1⟩,
            .insertSummary ⟨nextId + 1, dataSourceId, some nextId, s2, .paragraph⟩,
            .chatCall ⟨pr.sys3, pr.user3 s2⟩] ∧
         caught.rows =
           [⟨nextId, dataSourceId, none, s1, .sentence⟩,
            ⟨nextId + 1, dataSourceId, some nextId, s2, .paragraph⟩])) := by
  simp only [generateSummariesBody] at herr
  rcases h1 : oracle ⟨pr.sys1, pr.user1 content⟩ with m1 | s1 <;> rw [h1] at herr <;>
    simp only [] at herr
  · simp only [Except.error.injEq] at herr
    subst herr
    exact ⟨by simp only [generateSummaries, generateSummariesBody, h1], Or.inl ⟨rfl, rfl⟩⟩
  · rcases h2 : oracle ⟨pr.sys2, pr.user2 s1⟩ with m2 | s2 <;> rw [h2] at herr <;>
      simp only [] at herr
    · simp only [Except.error.injEq] at herr
      subst herr
      exact ⟨by simp only [generateSummaries, generateSummariesBody, h1, h2],
        Or.inr (Or.inl ⟨s1, rfl, rfl, rfl⟩)⟩
    · rcases h3 : oracle ⟨pr.sys3, pr.user3 s2⟩ with m3 | s3 <;> rw [h3] at herr <;>
        simp only [] at herr
      · simp only [Except.error.injEq] at herr
        subst herr
        exact ⟨by simp only [generateSummaries, generateSummariesBody, h1, h2, h3],
          Or.inr (Or.inr ⟨s1, s2, rfl, h2, rfl, rfl⟩)⟩
      · exact absurd herr (by simp)

theorem nodup_chatcalls_two (a b : ChatCall) (hab : a.system ≠ b.system) :
    ([a, b] : List ChatCall).Nodup := by
  simp only [List.nodup_cons, List.mem_singleton, List.not_mem_nil, not_false_iff,
    List.nodup_nil, and_true]
  intro h
  exact hab (by rw [h])

theorem nodup_chatcalls_three (a b c : ChatCall) (hab : a.system ≠ b.system)
    (hac : a.system ≠ c.system) (hbc : b.system ≠ c.system) :
    ([a, b, c] : List ChatCall).Nodup := by
  simp only [List.nodup_cons, List.mem_cons, List.mem_singleton, List.not_mem_nil,
    not_false_iff, List.nodup_nil, and_true, not_or]
  refine ⟨⟨fun h => hab (by rw [h]), fun h => hac (by rw [h])⟩, fun h => hbc (by rw [h])⟩

theorem extractFileText_events_all (f : FileData) (o : UploadOracles) (p : Event → Bool)
    (hw : p .whisperCall = true) (hu : p .unstructuredCall = true) :
    ((extractFileText f o).2.all p) = true := by
  rw [List.all_eq_true]
  intro e he
  have hk := extractFileText_events_kinds f o e he
  cases e <;> simp only [extractionCallEvent] at hk <;> first
    | exact hw
    | exact hu
    | exact absurd hk (by simp)

theorem generateSummaries_events_all (pr : SummaryPrompts) (oracle : ChatOracle)
    (dataSourceId : Nat) (content : String) (nextId : Nat) (p : Event → Bool)
    (hc : ∀ c, p (.chatCall c) = true) (hi : ∀ r, p (.insertSummary r) = true) :
    ((generateSummaries pr oracle dataSourceId content nextId).events.all p) = true := by
  rw [List.all_eq_true]
  intro e he
  have hk := generateSummaries_events_kinds pr oracle dataSourceId content nextId e he
  cases e <;> simp only [summaryPhaseEvent] at hk <;> first
    | exact hc _
    | exact hi _
    | exact absurd hk (by simp)

/-- Classification of every event the file-upload handler can emit. -/
theorem uploadPOST_events_shape (authUser : Option String) (projectId : Option Nat)
    (file : Option FileData) (db : DB) (o : UploadOracles) :
    ∀ e ∈ (uploadPOST authUser projectId file db o).events,
      (∃ t, e = .dbSelect t) ∨ (∃ s, e = .storageUpload s) ∨
      extractionCallEvent e = true ∨ summaryPhaseEvent e = true ∨
      (∃ row b, row.status = .processing ∧ e = .insertDataSource row b) ∨
      (∃ i, e = .updateDataSourceStatus i .processed) := by
  intro e he
  simp only [uploadPOST] at he
  split at he
  · simp at he
  · split at he
    · simp at he
    · simp at he
    · split at he
      · simp only [List.mem_singleton] at he
        exact Or.inl ⟨_, he⟩
      · split at he
        · simp only [List.mem_cons, List.not_mem_nil, or_false] at he
          rcases he with rfl | rfl
          · exact Or.inl ⟨_, rfl⟩
          · exact Or.inr (Or.inl ⟨_, rfl⟩)
        · split at he
          · simp only [List.append_assoc, List.mem_append, List.mem_cons,
              List.not_mem_nil, or_false, List.mem_singleton] at he
            rcases he with (rfl | rfl) | he | rfl
            · exact Or.inl ⟨_, rfl⟩
            · exact Or.inr (Or.inl ⟨_, rfl⟩)
            · exact Or.inr (Or.inr (Or.inl
                (extractFileText_events_kinds _ _ _ he)))
            · exact Or.inr (Or.inr (Or.inr (Or.inr (Or.inl ⟨_, _, rfl, rfl⟩))))
          · simp only [List.append_assoc, List.mem_append, List.mem_cons,
              List.not_mem_nil, or_false, List.mem_singleton] at he
            rcases he with (rfl | rfl) | he | rfl | he | rfl
            · exact Or.inl ⟨_, rfl⟩
            · exact Or.inr (Or.inl ⟨_, rfl⟩)
            · exact Or.inr (Or.inr (Or.inl
                (extractFileText_events_kinds _ _ _ he)))
            · exact Or.inr (Or.inr (Or.inr (Or.inr (Or.inl ⟨_, _, rfl, rfl⟩))))
            · refine Or.inr (Or.inr (Or.inr (Or.inl ?_)))
              split at he
              · exact generateSummaries_events_kinds _ _ _ _ _ _ he
              · simp at he
            · exact Or.inr (Or.inr (Or.inr (Or.inr (Or.inr ⟨_, rfl⟩))))

/-- Classification of every event the URL-upload handler can emit. -/
theorem urlPOST_events_shape (authUser : Option String) (body : Option (Nat × String))
    (db : DB) (o : UrlOracles) :
    ∀ e ∈ (urlPOST authUser body db o).events,
      (∃ t, e = .dbSelect t) ∨ (∃ u, e = .fetchUrl u) ∨
      summaryPhaseEvent e = true ∨
      (∃ row b, row.status = .processing ∧ e = .insertDataSource row b) ∨
      (∃ i, e = .updateDataSourceStatus i .processed) := by
  intro e he
  simp only [urlPOST] at he
  split at he
  · simp at he
  · split at he
    · simp at he
    · split at he
      · simp at he
      · split at he
        · simp only [List.mem_singleton] at he
          exact Or.inl ⟨_, he⟩
        · split at he
          · simp only [List.mem_cons, List.not_mem_nil, or_false] at he
            rcases he with rfl | rfl <;> exact Or.inl ⟨_, rfl⟩
          · split at he
            · simp only [List.mem_append, List.mem_cons, List.not_mem_nil,
                or_false, List.mem_singleton] at he
              rcases he with (rfl | rfl) | rfl
              · exact Or.inl ⟨_, rfl⟩
              · exact Or.inl ⟨_, rfl⟩
              · exact Or.inr (Or.inl ⟨_, rfl⟩)
            · split at he
              · simp only [List.mem_append, List.mem_cons, List.not_mem_nil,
                  or_false, List.mem_singleton] at he
                rcases he with (rfl | rfl) | rfl
                · exact Or.inl ⟨_, rfl⟩
                · exact Or.inl ⟨_, rfl⟩
                · exact Or.inr (Or.inl ⟨_, rfl⟩)
              · split at he
                · simp only [List.mem_append, List.mem_cons, List.not_mem_nil,
                    or_false, List.mem_singleton] at he
                  rcases he with (rfl | rfl) | rfl | rfl
                  · exact Or.inl ⟨_, rfl⟩
                  · exact Or.inl ⟨_, rfl⟩
                  · exact Or.inr (Or.inl ⟨_, rfl⟩)
                  · exact Or.inr (Or.inr (Or.inr (Or.inl ⟨_, _, rfl, rfl⟩)))
                · simp only [List.append_assoc, List.mem_append, List.mem_cons,
                    List.not_mem_nil, or_false, List.mem_singleton] at he
                  rcases he with (rfl | rfl) | (rfl | rfl) | he | rfl
                  · exact Or.inl ⟨_, rfl⟩
                  · exact Or.inl ⟨_, rfl⟩
                  · exact Or.inr (Or.inl ⟨_, rfl⟩)
                  · exact Or.inr (Or.inr (Or.inr (Or.inl ⟨_, _, rfl, rfl⟩)))
                  · exact Or.inr (Or.inr (Or.inl
                      (generateSummaries_events_kinds _ _ _ _ _ _ he)))
                  · exact Or.inr (Or.inr (Or.inr (Or.inr ⟨_, rfl⟩)))

/-- Classification of every event the analyze-sources handler can emit. -/
theorem analyzePOST_events_shape (authUser : Option String) (projectId : Option Nat)
    (db : DB) (o : AnalyzeOracles) :
    ∀ e ∈ (analyzePOST authUser projectId db o).events,
      (∃ t, e = .dbSelect t) ∨ e = .analysisChatCall ∨
      (∃ rows b, e = .insertSynthesisParameters rows b) ∨
      (∃ rows b, e = .insertSynthesisValues rows b) := by
  intro e he
  simp only [analyzePOST] at he
  split at he
  · simp at he
  · split at he
    · simp at he
    · split at he
      · simp only [List.mem_singleton] at he
        exact Or.inl ⟨_, he⟩
      · split at he
        · simp only [List.mem_cons, List.not_mem_nil, or_false] at he
          rcases he with rfl | rfl <;> exact Or.inl ⟨_, rfl⟩
        · split at he
          · simp only [List.mem_append, List.mem_cons, List.not_mem_nil,
              or_false, List.mem_singleton] at he
            rcases he with (rfl | rfl) | rfl
            · exact Or.inl ⟨_, rfl⟩
            · exact Or.inl ⟨_, rfl⟩
            · exact Or.inr (Or.inl rfl)
          · simp only [List.mem_append, List.mem_cons, List.not_mem_nil,
              or_false, List.mem_singleton] at he
            rcases he with (rfl | rfl) | rfl
            · exact Or.inl ⟨_, rfl⟩
            · exact Or.inl ⟨_, rfl⟩
            · exact Or.inr (Or.inl rfl)
          · split at he
            · simp only [List.mem_append, List.mem_cons, List.not_mem_nil,
                or_false, List.mem_singleton] at he
              rcases he with (rfl | rfl) | rfl
              · exact Or.inl ⟨_, rfl⟩
              · exact Or.inl ⟨_, rfl⟩
              · exact Or.inr (Or.inl rfl)
            · split at he
              · simp only [List.mem_append, List.mem_cons, List.not_mem_nil,
                  or_false, List.mem_singleton] at he
                rcases he with (rfl | rfl) | rfl | rfl
                · exact Or.inl ⟨_, rfl⟩
                · exact Or.inl ⟨_, rfl⟩
                · exact Or.inr (Or.inl rfl)
                · exact Or.inr (Or.inr (Or.inl ⟨_, _, rfl⟩))
              · split at he
                · simp only [List.mem_append, List.mem_cons, List.not_mem_nil,
                    or_false, List.mem_singleton] at he
                  rcases he with (rfl | rfl) | rfl | rfl
                  · exact Or.inl ⟨_, rfl⟩
                  · exact Or.inl ⟨_, rfl⟩
                  · exact Or.inr (Or.inl rfl)
                  · exact Or.inr (Or.inr (Or.inl ⟨_, _, rfl⟩))
                · split at he <;>
                    simp only [List.mem_append, List.mem_cons, List.not_mem_nil,
                      or_false, List.mem_singleton] at he <;>
                    rcases he with (rfl | rfl) | rfl | rfl | rfl
                  · exact Or.inl ⟨_, rfl⟩
                  · exact Or.inl ⟨_, rfl⟩
                  · exact Or.inr (Or.inl rfl)
                  · exact Or.inr (Or.inr (Or.inl ⟨_, _, rfl⟩))
                  · exact Or.inr (Or.inr (Or.inr ⟨_, _, rfl⟩))
                  · exact Or.inl ⟨_, rfl⟩
                  · exact Or.inl ⟨_, rfl⟩
                  · exact Or.inr (Or.inl rfl)
                  · exact Or.inr (Or.inr (Or.inl ⟨_, _, rfl⟩))
                  · exact Or.inr (Or.inr (Or.inr ⟨_, _, rfl⟩))

theorem uploadPOST_events_all (authUser : Option String) (projectId : Option Nat)
    (file : Option FileData) (db : DB) (o : UploadOracles) (p : Event → Bool)
    (h1 : ∀ t, p (.dbSelect t) = true)
    (h2 : ∀ s, p (.storageUpload s) = true)
    (h3 : p .whisperCall = true) (h4 : p .unstructuredCall = true)
    (h5 : ∀ row b, row.status = .processing → p (.insertDataSource row b) = true)
    (h6 : ∀ c, p (.chatCall c) = true)
    (h7 : ∀ r, p (.insertSummary r) = true)
    (h8 : ∀ i, p (.updateDataSourceStatus i .processed) = true) :
    ((uploadPOST authUser projectId file db o).events.all p) = true := by
  rw [List.all_eq_true]
  intro e he
  rcases uploadPOST_events_shape authUser projectId file db o e he with
    ⟨t, rfl⟩ | ⟨s, rfl⟩ | hk | hk | ⟨row, b, hst, rfl⟩ | ⟨i, rfl⟩
  · exact h1 t
  · exact h2 s
  · cases e <;> simp only [extractionCallEvent] at hk <;> first
      | exact h3
      | exact h4
      | exact absurd hk (by simp)
  · cases e <;> simp only [summaryPhaseEvent] at hk <;> first
      | exact h6 _
      | exact h7 _
      | exact absurd hk (by simp)
  · exact h5 row b hst
  · exact h8 i

theorem urlPOST_events_all (authUser : Option String) (body : Option (Nat × String))
    (db : DB) (o : UrlOracles) (p : Event → Bool)
    (h1 : ∀ t, p (.dbSelect t) = true)
    (h2 : ∀ u, p (.fetchUrl u) = true)
    (h5 : ∀ row b, row.status = .processing → p (.insertDataSource row b) = true)
    (h6 : ∀ c, p (.chatCall c) = true)
    (h7 : ∀ r, p (.insertSummary r) = true)
    (h8 : ∀ i, p (.updateDataSourceStatus i .processed) = true) :
    ((urlPOST authUser body db o).events.all p) = true := by
  rw [List.all_eq_true]
  intro e he
  rcases urlPOST_events_shape authUser body db o e he with
    ⟨t, rfl⟩ | ⟨u, rfl⟩ | hk | ⟨row, b, hst, rfl⟩ | ⟨i, rfl⟩
  · exact h1 t
  · exact h2 u
  · cases e <;> simp only [summaryPhaseEvent] at hk <;> first
      | exact h6 _
      | exact h7 _
      | exact absurd hk (by simp)
  · exact h5 row b hst
  · exact h8 i

theorem analyzePOST_events_all (authUser : Option String) (projectId : Option Nat)
    (db : DB) (o : AnalyzeOracles) (p : Event → Bool)
    (h1 : ∀ t, p (.dbSelect t) = true)
    (h2 : p .analysisChatCall = true)
    (h3 : ∀ rows b, p (.insertSynthesisParameters rows b) = true)
    (h4 : ∀ rows b, p (.insertSynthesisValues rows b) = true) :
    ((analyzePOST authUser projectId db o).events.all p) = true := by
  rw [List.all_eq_true]
  intro e he
  rcases analyzePOST_events_shape authUser projectId db o e he with
    ⟨t, rfl⟩ | rfl | ⟨rows, b, rfl⟩ | ⟨rows, b, rfl⟩
  · exact h1 t
  · exact h2
  · exact h3 rows b
  · exact h4 rows b

theorem extractFileText_whisper_error (f : FileData) (o : UploadOracles) (m : String)
    (haud : strStartsWith f.mime "audio/" = true) (hw : o.whisper = .error m) :
    (extractFileText f o).1 = "[Text extraction failed: " ++ m ++ "]" ∧
      (extractFileText f o).2 = [.whisperCall] := by
  have hplain : ¬f.mime = "text/plain" := by
    intro h
    rw [h] at haud
    exact absurd haud (by decide)
  simp only [extractFileText, if_neg hplain, haud, if_pos, hw]
  exact ⟨trivial, trivial⟩

theorem extractFileText_unstructured_error (f : FileData) (o : UploadOracles) (m : String)
    (haud : strStartsWith f.mime "audio/" = false) (hdoc : isDocMime f.mime = true)
    (hu : o.unstructured = .error m) :
    (extractFileText f o).1 = "[Document uploaded but text extraction failed: " ++ m ++ "]" ∧
      (extractFileText f o).2 = [.unstructuredCall] := by
  have hplain : ¬f.mime = "text/plain" := by
    intro h
    rw [h] at hdoc
    exact absurd hdoc (by decide)
  simp only [extractFileText, if_neg hplain, haud, hdoc, if_pos, hu, Bool.false_eq_true,
    if_false]
  exact ⟨trivial, trivial⟩

theorem uploadPOST_success_eq (userId : String) (pid : Nat) (f : FileData) (db : DB)
    (o : UploadOracles) (proj : ProjectRow)
    (hfind : db.projects.find? (fun p => p.id == pid && p.userId == userId) = some proj)
    (hst : o.storageUploadFails = false) (hins : o.insertDataSourceFails = false) :
    uploadPOST (some userId) (some pid) (some f) db o = uploadSuccess userId pid f db o := by
  simp only [uploadPOST, uploadSuccess, hfind, hst, hins, Bool.false_eq_true, if_false,
    List.append_assoc]

theorem urlPOST_success_eq (userId : String) (pid : Nat) (url : String)
    (page : FetchedPage) (db : DB) (o : UrlOracles) (proj : ProjectRow)
    (hurl : o.urlParses = true)
    (hfind : db.projects.find? (fun p => p.id == pid && p.userId == userId) = some proj)
    (hdup : singleRow (db.dataSources.filter
      (fun s => s.projectId == pid && s.contentUrl == url)) = (none : Option DataSourceRow))
    (hfetch : o.fetched = .ok page)
    (hlen : (page.extractedText == "" || page.extractedText.length < 50) = false)
    (hins : o.insertDataSourceFails = false) :
    urlPOST (some userId) (some (pid, url)) db o = urlSuccess pid url page db o := by
  simp only [urlPOST, urlSuccess, hurl, hfind, hdup, hfetch, hins, Bool.not_true,
    Bool.false_eq_true, if_false, List.append_assoc]
  rw [if_neg]
  · rfl
  · simp only [hlen]
    exact fun h => absurd h (by simp)

theorem mem_cons_cons_append_decomp {A : Type} (a b : A) (l1 l2 : List A) (x y : A)
    (hy : y ∈ l2) :
    ∃ pre post, a :: b :: (l1 ++ x :: l2) = pre ++ x :: post ∧ y ∈ post :=
  ⟨a :: b :: l1, l2, by simp, hy⟩

theorem uploadPOST_insert_then_update (authUser : Option String) (projectId : Option Nat)
    (file : Option FileData) (db : DB) (o : UploadOracles) (row : DataSourceRow)
    (hmem : Event.insertDataSource row true ∈ (uploadPOST authUser projectId file db o).events) :
    ∃ pre post, (uploadPOST authUser projectId file db o).events =
        pre ++ Event.insertDataSource row true :: post ∧
      Event.updateDataSourceStatus row.id .processed ∈ post := by
  revert hmem
  simp only [uploadPOST]
  split
  · intro hmem; simp at hmem
  · split
    · intro hmem; simp at hmem
    · intro hmem; simp at hmem
    · split
      · intro hmem; simp at hmem
      · split
        · intro hmem; simp at hmem
        · split
          · intro hmem
            simp only [List.append_assoc, List.mem_append, List.mem_cons,
              List.not_mem_nil, or_false, List.mem_singleton] at hmem
            rcases hmem with (h | h) | h | h
            · exact absurd h (by simp)
            · exact absurd h (by simp)
            · have := extractFileText_events_kinds _ _ _ h
              simp [extractionCallEvent] at this
            · exact absurd h (by simp)
          · intro hmem
            simp only [List.append_assoc, List.mem_append, List.mem_cons,
              List.not_mem_nil, or_false, List.mem_singleton] at hmem
            rcases hmem with (h | h) | h | h | h | h
            · exact absurd h (by simp)
            · exact absurd h (by simp)
            · have := extractFileText_events_kinds _ _ _ h
              simp [extractionCallEvent] at this
            · simp only [Event.insertDataSource.injEq, and_true] at h
              subst h
              simp only [List.append_assoc, List.cons_append, List.singleton_append,
                List.nil_append]
              exact mem_cons_cons_append_decomp _ _ _ _ _ _ (by simp)
            · have hk := (by
                  split at h
                  · exact generateSummaries_events_kinds _ _ _ _ _ _ h
                  · simp at h : summaryPhaseEvent (Event.insertDataSource row true) = true)
              simp [summaryPhaseEvent] at hk
            · exact absurd h (by simp)

theorem mem_cons3_append_decomp {A : Type} (a b c : A) (l2 : List A) (x y : A)
    (hy : y ∈ l2) :
    ∃ pre post, a :: b :: c :: x :: l2 = pre ++ x :: post ∧ y ∈ post :=
  ⟨[a, b, c], l2, by simp, hy⟩

theorem urlPOST_insert_then_update (authUser : Option String) (body : Option (Nat × String))
    (db : DB) (o : UrlOracles) (row : DataSourceRow)
    (hmem : Event.insertDataSource row true ∈ (urlPOST authUser body db o).events) :
    ∃ pre post, (urlPOST authUser body db o).events =
        pre ++ Event.insertDataSource row true :: post ∧
      Event.updateDataSourceStatus row.id .processed ∈ post := by
  revert hmem
  simp only [urlPOST]
  split
  · intro hmem; simp at hmem
  · split
    · intro hmem; simp at hmem
    · split
      · intro hmem; simp at hmem
      · split
        · intro hmem; simp at hmem
        · split
          · intro hmem; simp at hmem
          · split
            · intro hmem; simp at hmem
            · split
              · intro hmem; simp at hmem
              · split
                · intro hmem; simp at hmem
                · intro hmem
                  simp only [List.append_assoc, List.cons_append, List.singleton_append,
                    List.nil_append, List.mem_cons, List.mem_append,
                    List.not_mem_nil, or_false, List.mem_singleton] at hmem
                  rcases hmem with h | h | h | h | h | h
                  · exact absurd h (by simp)
                  · exact absurd h (by simp)
                  · exact absurd h (by simp)
                  · simp only [Event.insertDataSource.injEq, and_true] at h
                    subst h
                    simp only [List.append_assoc, List.cons_append,
                      List.singleton_append, List.nil_append]
                    exact mem_cons3_append_decomp _ _ _ _ _ _ (by simp)
                  · have hk := generateSummaries_events_kinds _ _ _ _ _ _ h
                    simp [summaryPhaseEvent] at hk
                  · exact absurd h (by simp)

/-- Claim C7: authentication gates every ingestion and analysis endpoint:
with no authenticated user, the file-upload, URL-upload and analyze-sources
handlers return a 401 response with no database read, storage write or
external API call performed, and the database unchanged. -/
theorem auth_gates_all_handlers :
    (∀ (projectId : Option Nat) (file : Option FileData) (db : DB) (o : UploadOracles),
      uploadPOST none projectId file db o = ⟨.unauthorized, [], db⟩ ∧
      (uploadPOST none projectId file db o).response.code = 401) ∧
    (∀ (body : Option (Nat × String)) (db : DB) (o : UrlOracles),
      urlPOST none body db o = ⟨.unauthorized, [], db⟩ ∧
      (urlPOST none body db o).response.code = 401) ∧
    (∀ (projectId : Option Nat) (db : DB) (o : AnalyzeOracles),
      analyzePOST none projectId db o = ⟨.unauthorized, [], db⟩ ∧
      (analyzePOST none projectId db o).response.code = 401) :=
  ⟨fun _ _ _ _ => ⟨rfl, rfl⟩, fun _ _ _ => ⟨rfl, rfl⟩, fun _ _ _ => ⟨rfl, rfl⟩⟩

/-- Claim C4: the data-source status enum has exactly the four values
`pending`, `processing`, `processed`, `failed`; every status write any of
the three handlers performs is `processing` on a data-source insert or
`processed` on the status update; and every data source successfully
inserted by the file-upload or URL route is inserted with status
`processing` and later (in the same run) updated to `processed`. -/
theorem status_enum_four_values_and_sequential_writes :
    (∀ s : DataSourceStatus, s ∈ dataSourceStatusEnum) ∧
    dataSourceStatusEnum.length = 4 ∧
    (∀ authUser projectId file db o,
      ((uploadPOST authUser projectId file db o).events.all statusWriteOk) = true) ∧
    (∀ authUser body db o,
      ((urlPOST authUser body db o).events.all statusWriteOk) = true) ∧
    (∀ authUser projectId db o,
      ((analyzePOST authUser projectId db o).events.all statusWriteOk) = true) ∧
    (∀ authUser projectId file db o (row : DataSourceRow),
      Event.insertDataSource row true ∈ (uploadPOST authUser projectId file db o).events →
      row.status = .processing ∧
      ∃ pre post, (uploadPOST authUser projectId file db o).events =
          pre ++ Event.insertDataSource row true :: post ∧
        Event.updateDataSourceStatus row.id .processed ∈ post) ∧
    (∀ authUser body db o (row : DataSourceRow),
      Event.insertDataSource row true ∈ (urlPOST authUser body db o).events →
      row.status = .processing ∧
      ∃ pre post, (urlPOST authUser body db o).events =
          pre ++ Event.insertDataSource row true :: post ∧
        Event.updateDataSourceStatus row.id .processed ∈ post) := by
  refine ⟨?_, rfl, ?_, ?_, ?_, ?_, ?_⟩
  · intro s; cases s <;> simp [dataSourceStatusEnum]
  · intro authUser projectId file db o
    exact uploadPOST_events_all authUser projectId file db o statusWriteOk
      (fun t => rfl) (fun s => rfl) rfl rfl
      (fun row b hst => by simp [statusWriteOk, hst])
      (fun c => rfl) (fun r => rfl) (fun i => by simp [statusWriteOk])
  · intro authUser body db o
    exact urlPOST_events_all authUser body db o statusWriteOk
      (fun t => rfl) (fun u => rfl)
      (fun row b hst => by simp [statusWriteOk, hst])
      (fun c => rfl) (fun r => rfl) (fun i => by simp [statusWriteOk])
  · intro authUser projectId db o
    exact analyzePOST_events_all authUser projectId db o statusWriteOk
      (fun t => rfl) rfl (fun rows b => rfl) (fun rows b => rfl)
  · intro authUser projectId file db o row hmem
    constructor
    · rcases uploadPOST_events_shape authUser projectId file db o _ hmem with
        ⟨t, h⟩ | ⟨s, h⟩ | hk | hk | ⟨row2, b2, hst, h⟩ | ⟨i, h⟩
      · exact absurd h (by simp)
      · exact absurd h (by simp)
      · simp [extractionCallEvent] at hk
      · simp [summaryPhaseEvent] at hk
      · simp only [Event.insertDataSource.injEq] at h
        rw [h.1]
        exact hst
      · exact absurd h (by simp)
    · exact uploadPOST_insert_then_update authUser projectId file db o row hmem
  · intro authUser body db o row hmem
    constructor
    · rcases urlPOST_events_shape authUser body db o _ hmem with
        ⟨t, h⟩ | ⟨u, h⟩ | hk | ⟨row2, b2, hst, h⟩ | ⟨i, h⟩
      · exact absurd h (by simp)
      · exact absurd h (by simp)
      · simp [summaryPhaseEvent] at hk
      · simp only [Event.insertDataSource.injEq] at h
        rw [h.1]
        exact hst
      · exact absurd h (by simp)
    · exact urlPOST_insert_then_update authUser body db o row hmem

/-- Witness for `status_enum_four_values_and_sequential_writes`: a concrete
successful upload whose insert event is followed by the update to
`processed`. -/
theorem status_enum_four_values_and_sequential_writes_witness :
    (Event.insertDataSource sampleRow true ∈
      (uploadPOST (some "u") (some 1) (some sampleFile) sampleDB sampleUploadOracles).events) ∧
    (sampleRow.status = .processing ∧
      ∃ pre post, (uploadPOST (some "u") (some 1) (some sampleFile) sampleDB
          sampleUploadOracles).events =
          pre ++ Event.insertDataSource sampleRow true :: post ∧
        Event.updateDataSourceStatus sampleRow.id .processed ∈ post) :=
  ⟨by decide,
   status_enum_four_values_and_sequential_writes.2.2.2.2.2.1
     (some "u") (some 1) (some sampleFile) sampleDB sampleUploadOracles sampleRow
     (by decide)⟩

/-- Claim C8: although the status enum declares `failed`, no handler ever
writes status `failed` (nor `pending`): every status value written to a
data source by any of the three handlers is `processing` on insert or
`processed` on update. -/
theorem no_handler_writes_failed_or_pending :
    (∀ authUser projectId file db o,
      ((uploadPOST authUser projectId file db o).events.all
        (fun e => !writesStatus e .failed && !writesStatus e .pending &&
          statusWriteOk e)) = true) ∧
    (∀ authUser body db o,
      ((urlPOST authUser body db o).events.all
        (fun e => !writesStatus e .failed && !writesStatus e .pending &&
          statusWriteOk e)) = true) ∧
    (∀ authUser projectId db o,
      ((analyzePOST authUser projectId db o).events.all
        (fun e => !writesStatus e .failed && !writesStatus e .pending &&
          statusWriteOk e)) = true) := by
  refine ⟨?_, ?_, ?_⟩
  · intro authUser projectId file db o
    exact uploadPOST_events_all authUser projectId file db o _
      (fun t => rfl) (fun s => rfl) rfl rfl
      (fun row b hst => by simp [statusWriteOk, writesStatus, hst])
      (fun c => rfl) (fun r => rfl)
      (fun i => by simp [statusWriteOk, writesStatus])
  · intro authUser body db o
    exact urlPOST_events_all authUser body db o _
      (fun t => rfl) (fun u => rfl)
      (fun row b hst => by simp [statusWriteOk, writesStatus, hst])
      (fun c => rfl) (fun r => rfl)
      (fun i => by simp [statusWriteOk, writesStatus])
  · intro authUser projectId db o
    exact analyzePOST_events_all authUser projectId db o _
      (fun t => rfl) rfl (fun rows b => rfl) (fun rows b => rfl)

/-- Claim C5: the file-upload handler's text extraction dispatches on the
file's MIME type exactly as the claim describes: every MIME type is routed
identically by the source's branch order and by the claim's listing order,
`audio/*` files are transcribed by the speech-to-text service, document
types are partitioned by the document-partitioning service, `text/plain` is
decoded locally with no third-party call, and every other MIME type gets a
placeholder string with no extraction call. -/
theorem extraction_dispatch_matches_claim :
    (∀ mime, extractionRoute mime = claimRoute mime) ∧
    (∀ f o, extractFileText f o = claimExtractBehavior f o) := by
  have hroute : ∀ mime, extractionRoute mime = claimRoute mime := by
    intro mime
    by_cases hp : mime = "text/plain"
    · subst hp; rfl
    · by_cases ha : strStartsWith mime "audio/" = true
      · simp [extractionRoute, claimRoute, hp, ha]
      · by_cases hd : isDocMime mime = true
        · simp [extractionRoute, claimRoute, hp, ha, hd]
        · simp [extractionRoute, claimRoute, hp, ha, hd]
  refine ⟨hroute, ?_⟩
  intro f o
  by_cases hp : f.mime = "text/plain"
  · have hcr : claimRoute "text/plain" = ExtractionRoute.localText := by decide
    have h2 : claimExtractBehavior f o = (f.content, []) := by
      simp only [claimExtractBehavior]
      rw [hp, hcr]
    rw [h2]
    simp [extractFileText, hp]
  · by_cases ha : strStartsWith f.mime "audio/" = true
    · have hr : claimRoute f.mime = .speechToText := by simp [claimRoute, ha]
      simp only [claimExtractBehavior, hr, extractFileText, hp, ha, if_pos,
        Bool.false_eq_true, if_false]
    · by_cases hd : isDocMime f.mime = true
      · have hr : claimRoute f.mime = .documentPartition := by simp [claimRoute, ha, hd]
        simp only [claimExtractBehavior, hr, extractFileText, hp, ha, hd, if_pos,
          Bool.false_eq_true, if_false]
      · have hr : claimRoute f.mime = .placeholder := by simp [claimRoute, hp, ha, hd]
        simp only [claimExtractBehavior, hr, extractFileText, hp, ha, hd, if_pos,
          Bool.false_eq_true, if_false]

/-- Claim C3: failures during summary generation are logged and swallowed
with no retry: any error raised inside `generateSummaries` (file-upload or
URL prompts) is caught, the function returns normally keeping exactly the
side effects performed before the throw, no chat call is ever repeated (the
distinct calls attempted number at most three), no exception propagates to
the HTTP handler, and the handler still updates the data source's status to
`processed` and answers 200. -/
theorem summary_failures_swallowed_no_retry :
    (∀ (oracle : ChatOracle) (dataSourceId : Nat) (content : String) (nextId : Nat)
        (caught : SummaryOutcome),
      generateSummariesBody uploadPrompts oracle dataSourceId content nextId =
          .error caught →
        generateSummaries uploadPrompts oracle dataSourceId content nextId = caught ∧
        (chatCallsOf caught.events).Nodup ∧
        (chatCallsOf caught.events).length ≤ 3) ∧
    (∀ (oracle : ChatOracle) (dataSourceId : Nat) (content : String) (nextId : Nat)
        (caught : SummaryOutcome),
      generateSummariesBody urlPrompts oracle dataSourceId content nextId =
          .error caught →
        generateSummaries urlPrompts oracle dataSourceId content nextId = caught ∧
        (chatCallsOf caught.events).Nodup ∧
        (chatCallsOf caught.events).length ≤ 3) ∧
    (∀ userId pid f db (o : UploadOracles) (proj : ProjectRow),
      db.projects.find? (fun p => p.id == pid && p.userId == userId) = some proj →
      o.storageUploadFails = false → o.insertDataSourceFails = false →
      ((uploadPOST (some userId) (some pid) (some f) db o).events.any
        isUpdateProcessed) = true ∧
      (uploadPOST (some userId) (some pid) (some f) db o).response.code = 200) ∧
    (∀ userId pid url page db (o : UrlOracles) (proj : ProjectRow),
      o.urlParses = true →
      db.projects.find? (fun p => p.id == pid && p.userId == userId) = some proj →
      singleRow (db.dataSources.filter
        (fun s => s.projectId == pid && s.contentUrl == url)) = none →
      o.fetched = .ok page →
      (page.extractedText == "" || page.extractedText.length < 50) = false →
      o.insertDataSourceFails = false →
      ((urlPOST (some userId) (some (pid, url)) db o).events.any
        isUpdateProcessed) = true ∧
      (urlPOST (some userId) (some (pid, url)) db o).response.code = 200) := by
  refine ⟨?_, ?_, ?_, ?_⟩
  · intro oracle dataSourceId content nextId caught herr
    obtain ⟨hrun, hshape⟩ :=
      generateSummariesBody_error_cases uploadPrompts oracle dataSourceId content
        nextId caught herr
    refine ⟨hrun, ?_⟩
    rcases hshape with ⟨he, _⟩ | ⟨s1, _, he, _⟩ | ⟨s1, s2, _, _, he, _⟩ <;> rw [he] <;>
      simp only [chatCallsOf, List.filterMap_cons, List.filterMap_nil]
    · exact ⟨List.nodup_singleton _, by simp⟩
    · exact ⟨nodup_chatcalls_two _ _ (by simp [uploadPrompts]), by simp⟩
    · exact ⟨nodup_chatcalls_three _ _ _ (by simp [uploadPrompts])
        (by simp [uploadPrompts]) (by simp [uploadPrompts]), by simp⟩
  · intro oracle dataSourceId content nextId caught herr
    obtain ⟨hrun, hshape⟩ :=
      generateSummariesBody_error_cases urlPrompts oracle dataSourceId content
        nextId caught herr
    refine ⟨hrun, ?_⟩
    rcases hshape with ⟨he, _⟩ | ⟨s1, _, he, _⟩ | ⟨s1, s2, _, _, he, _⟩ <;> rw [he] <;>
      simp only [chatCallsOf, List.filterMap_cons, List.filterMap_nil]
    · exact ⟨List.nodup_singleton _, by simp⟩
    · exact ⟨nodup_chatcalls_two _ _ (by simp [urlPrompts]), by simp⟩
    · exact ⟨nodup_chatcalls_three _ _ _ (by simp [urlPrompts])
        (by simp [urlPrompts]) (by simp [urlPrompts]), by simp⟩
  · intro userId pid f db o proj hfind hst hins
    rw [uploadPOST_success_eq userId pid f db o proj hfind hst hins]
    constructor
    · simp [uploadSuccess, List.any_append, isUpdateProcessed]
    · simp [uploadSuccess, HttpResponse.code]
  · intro userId pid url page db o proj hurl hfind hdup hfetch hlen hins
    rw [urlPOST_success_eq userId pid url page db o proj hurl hfind hdup hfetch hlen hins]
    constructor
    · simp [urlSuccess, List.any_append, isUpdateProcessed]
    · simp [urlSuccess, HttpResponse.code]

/-- Witness for `summary_failures_swallowed_no_retry`: an oracle whose very
first chat call fails; `generateSummaries` returns with exactly the one
attempted call and no summary rows. -/
theorem summary_failures_swallowed_no_retry_witness :
    (generateSummariesBody uploadPrompts (fun _ => .error "rate limited") 7 "doc" 0 =
      .error ⟨[.chatCall ⟨uploadPrompts.sys1, uploadPrompts.user1 "doc"⟩], [], 0⟩) ∧
    (generateSummaries uploadPrompts (fun _ => .error "rate limited") 7 "doc" 0 =
        ⟨[.chatCall ⟨uploadPrompts.sys1, uploadPrompts.user1 "doc"⟩], [], 0⟩ ∧
      (chatCallsOf (SummaryOutcome.mk
        [.chatCall ⟨uploadPrompts.sys1, uploadPrompts.user1 "doc"⟩] [] 0).events).Nodup ∧
      (chatCallsOf (SummaryOutcome.mk
        [.chatCall ⟨uploadPrompts.sys1, uploadPrompts.user1 "doc"⟩] [] 0).events).length ≤ 3) :=
  ⟨by rfl,
   summary_failures_swallowed_no_retry.1 (fun _ => .error "rate limited") 7 "doc" 0
     ⟨[.chatCall ⟨uploadPrompts.sys1, uploadPrompts.user1 "doc"⟩], [], 0⟩ (by rfl)⟩

theorem generateSummaries_has_chat (pr : SummaryPrompts) (oracle : ChatOracle)
    (dataSourceId : Nat) (content : String) (nextId : Nat) :
    ((generateSummaries pr oracle dataSourceId content nextId).events.any
      isChatEvent) = true := by
  simp only [generateSummaries, generateSummariesBody]
  rcases h1 : oracle ⟨pr.sys1, pr.user1 content⟩ with m1 | s1 <;> simp only []
  · rfl
  · rcases h2 : oracle ⟨pr.sys2, pr.user2 s1⟩ with m2 | s2 <;> simp only []
    · rfl
    · rcases h3 : oracle ⟨pr.sys3, pr.user3 s2⟩ with m3 | s3 <;> simp only [] <;> rfl

/-- Claim C9: the file-upload endpoint reports success and marks the source
`processed` even when extraction fails: a throw from the transcription call
(outer catch) or from the partitioning call (inner catch) turns the
extracted text into a bracketed error placeholder instead of failing the
request, the response is still the 200 `okUpload` with status `processed`;
and summary generation runs iff the extracted text is non-empty and longer
than 50 characters — with 50 or fewer characters the run emits no chat call
and no summary insert and leaves the summaries table unchanged. -/
theorem upload_reports_success_despite_extraction_failure :
    (∀ f (o : UploadOracles) m, strStartsWith f.mime "audio/" = true →
      o.whisper = .error m →
      (extractFileText f o).1 = "[Text extraction failed: " ++ m ++ "]") ∧
    (∀ f (o : UploadOracles) m, strStartsWith f.mime "audio/" = false →
      isDocMime f.mime = true → o.unstructured = .error m →
      (extractFileText f o).1 =
        "[Document uploaded but text extraction failed: " ++ m ++ "]") ∧
    (∀ userId pid f db (o : UploadOracles) (proj : ProjectRow),
      db.projects.find? (fun p => p.id == pid && p.userId == userId) = some proj →
      o.storageUploadFails = false → o.insertDataSourceFails = false →
      (uploadPOST (some userId) (some pid) (some f) db o).response =
        .okUpload db.nextId f.name (getDocumentType f.mime) .processed) ∧
    (∀ userId pid f db (o : UploadOracles) (proj : ProjectRow),
      db.projects.find? (fun p => p.id == pid && p.userId == userId) = some proj →
      o.storageUploadFails = false → o.insertDataSourceFails = false →
      (shouldSummarize (extractFileText f o).1 = true →
        ((uploadPOST (some userId) (some pid) (some f) db o).events.any
          isChatEvent) = true) ∧
      (shouldSummarize (extractFileText f o).1 = false →
        ((uploadPOST (some userId) (some pid) (some f) db o).events.all
          (fun e => !summaryPhaseEvent e)) = true ∧
        (uploadPOST (some userId) (some pid) (some f) db o).db.summaries =
          db.summaries)) := by
  refine ⟨?_, ?_, ?_, ?_⟩
  · intro f o m ha hw
    exact (extractFileText_whisper_error f o m ha hw).1
  · intro f o m ha hd hu
    exact (extractFileText_unstructured_error f o m ha hd hu).1
  · intro userId pid f db o proj hfind hst hins
    rw [uploadPOST_success_eq userId pid f db o proj hfind hst hins]
    rfl
  · intro userId pid f db o proj hfind hst hins
    rw [uploadPOST_success_eq userId pid f db o proj hfind hst hins]
    constructor
    · intro hc
      simp only [uploadSuccess, hc, if_true]
      rw [List.any_eq_true]
      have h := generateSummaries_has_chat uploadPrompts o.chat db.nextId
        (extractFileText f o).1 (db.nextId + 1)
      rw [List.any_eq_true] at h
      obtain ⟨x, hx, hpx⟩ := h
      refine ⟨x, ?_, hpx⟩
      simp [List.mem_append, hx]
    · intro hc
      simp only [uploadSuccess, hc, Bool.false_eq_true, if_false]
      constructor
      · rw [List.all_eq_true]
        intro e he
        simp only [List.append_assoc, List.cons_append, List.nil_append,
          List.singleton_append, List.mem_append, List.mem_cons, List.not_mem_nil,
          or_false, List.mem_singleton] at he
        rcases he with rfl | rfl | he | rfl | rfl
        · rfl
        · rfl
        · have hk := extractFileText_events_kinds f o e he
          cases e <;> simp only [extractionCallEvent] at hk <;> first
            | rfl
            | exact absurd hk (by simp)
        · rfl
        · rfl
      · simp

/-- Witness for `upload_reports_success_despite_extraction_failure`: a
concrete audio upload whose transcription throws; the text becomes the
bracketed placeholder (30 characters, so no summaries) and the request
still returns the 200 `okUpload` with status `processed`. -/
theorem upload_reports_success_despite_extraction_failure_witness :
    (strStartsWith wAudio.mime "audio/" = true ∧
      wAudioOracles.whisper = .error "boom" ∧
      sampleDB.projects.find? (fun p => p.id == 1 && p.userId == "u") =
        some ⟨1, "u"⟩ ∧
      shouldSummarize (extractFileText wAudio wAudioOracles).1 = false) ∧
    (extractFileText wAudio wAudioOracles).1 =
      "[Text extraction failed: " ++ "boom" ++ "]" ∧
    (uploadPOST (some "u") (some 1) (some wAudio) sampleDB wAudioOracles).response =
      .okUpload sampleDB.nextId wAudio.name (getDocumentType wAudio.mime) .processed ∧
    (((uploadPOST (some "u") (some 1) (some wAudio) sampleDB wAudioOracles).events.all
        (fun e => !summaryPhaseEvent e)) = true ∧
      (uploadPOST (some "u") (some 1) (some wAudio) sampleDB
        wAudioOracles).db.summaries = sampleDB.summaries) :=
  ⟨⟨by decide, rfl, by decide, by decide⟩,
   upload_reports_success_despite_extraction_failure.1 wAudio wAudioOracles "boom"
     (by decide) rfl,
   upload_reports_success_despite_extraction_failure.2.2.1 "u" 1 wAudio sampleDB
     wAudioOracles ⟨1, "u"⟩ (by decide) rfl rfl,
   (upload_reports_success_despite_extraction_failure.2.2.2 "u" 1 wAudio sampleDB
     wAudioOracles ⟨1, "u"⟩ (by decide) rfl rfl).2 (by decide)⟩

/-- Counterexample to claim C10 as stated: in a project where the submitted
URL already exists as a data source's `content_url` — here twice — the
duplicate check's PostgREST `.single()` returns no row (it errors on more
than one match and the handler ignores the error), so the handler does not
return 409: it fetches the URL, inserts a third data source, and answers
200. -/
theorem url_duplicate_check_counterexample :
    ((dupDB.dataSources.filter
        (fun s => s.projectId == 1 && s.contentUrl == "http://x")).length = 2) ∧
    (urlPOST (some "u") (some (1, "http://x")) dupDB dupUrlOracles).response.code =
      200 ∧
    ((urlPOST (some "u") (some (1, "http://x")) dupDB dupUrlOracles).events.any
      isFetchEvent) = true ∧
    (urlPOST (some "u") (some (1, "http://x")) dupDB
      dupUrlOracles).db.dataSources.length = 3 := by
  decide

/-- Claim C10 (amended): when exactly one data source of the project already
has the URL as its `content_url`, the URL route returns a 409 conflict
response identifying that source (its id and name); on that path no fetch
is performed, no data-source or summary row is inserted, no status is
changed, and the database is unchanged. -/
theorem url_duplicate_conflict_when_unique (userId : String) (pid : Nat)
    (url : String) (db : DB) (o : UrlOracles) (proj : ProjectRow)
    (s0 : DataSourceRow)
    (hurl : o.urlParses = true)
    (hfind : db.projects.find? (fun p => p.id == pid && p.userId == userId) = some proj)
    (hone : db.dataSources.filter
      (fun s => s.projectId == pid && s.contentUrl == url) = [s0]) :
    urlPOST (some userId) (some (pid, url)) db o =
      ⟨.conflict s0.id s0.name,
       [.dbSelect "projects", .dbSelect "data_sources"], db⟩ ∧
    (HttpResponse.conflict s0.id s0.name).code = 409 := by
  refine ⟨?_, rfl⟩
  simp only [urlPOST, hurl, hfind, hone, singleRow, Bool.not_true,
    Bool.false_eq_true, if_false]

/-- Witness for `url_duplicate_conflict_when_unique`: a concrete database
holding the URL exactly once; the route answers 409 with the existing
source's id and name and changes nothing. -/
theorem url_duplicate_conflict_when_unique_witness :
    (dupUrlOracles.urlParses = true ∧
      oneDupDB.projects.find? (fun p => p.id == 1 && p.userId == "u") =
        some ⟨1, "u"⟩ ∧
      oneDupDB.dataSources.filter
        (fun s => s.projectId == 1 && s.contentUrl == "http://x") =
        [⟨20, 1, "url", "A", "http://x", .processed⟩]) ∧
    (urlPOST (some "u") (some (1, "http://x")) oneDupDB dupUrlOracles =
      ⟨.conflict 20 "A", [.dbSelect "projects", .dbSelect "data_sources"], oneDupDB⟩ ∧
     (HttpResponse.conflict 20 "A").code = 409) :=
  ⟨⟨rfl, by decide, by decide⟩,
   url_duplicate_conflict_when_unique "u" 1 "http://x" oneDupDB dupUrlOracles
     ⟨1, "u"⟩ ⟨20, 1, "url", "A", "http://x", .processed⟩ rfl (by decide) (by decide)⟩

theorem find?_isSome_eq_any {α : Type} (p : α → Bool) (l : List α) :
    (l.find? p).isSome = l.any p := by
  induction l with
  | nil => rfl
  | cons a l ih =>
    by_cases h : p a = true <;> simp [List.find?_cons, h, ih]

theorem length_filterMap_eq_length_filter {α β : Type} (f : α → Option β)
    (p : α → Bool) (h : ∀ a, (f a).isSome = p a) (l : List α) :
    (l.filterMap f).length = (l.filter p).length := by
  induction l with
  | nil => rfl
  | cons a l ih =>
    rcases hfa : f a with _ | b
    · have hpa : p a = false := by rw [← h a, hfa]; rfl
      simp [List.filterMap_cons, List.filter_cons, hfa, hpa, ih]
    · have hpa : p a = true := by rw [← h a, hfa]; rfl
      simp [List.filterMap_cons, List.filter_cons, hfa, hpa, ih]

theorem parametersToInsert_length (pid startId : Nat) (ps : List SuggestedParameter) :
    (parametersToInsert pid startId ps).length = ps.length := by
  simp [parametersToInsert]

theorem parametersToInsert_getElem (pid startId : Nat) (ps : List SuggestedParameter)
    (i : Nat) (spi : SuggestedParameter) (h : ps[i]? = some spi) :
    (parametersToInsert pid startId ps)[i]? =
      some ⟨startId + i, pid, spi.name, spi.pType, spi.description, true, i⟩ := by
  simp [parametersToInsert, List.getElem?_map, List.getElem?_enum, h]

theorem valuesToInsert_mem (insertedParameters : List SynthesisParameterRow)
    (extractedValues : List (Nat × List (String × Option ExtractedCell)))
    (v : SynthesisValueRow) (hv : v ∈ valuesToInsert insertedParameters extractedValues) :
    v.isVerified = false ∧
    ∃ p ∈ insertedParameters, p.id = v.parameterId ∧
      ∃ dsv ∈ extractedValues, ∃ nv ∈ dsv.2, p.name = nv.1 := by
  simp only [valuesToInsert, List.mem_flatten, List.mem_map] at hv
  obtain ⟨s, ⟨dsv, hdsv, hs⟩, hvs⟩ := hv
  subst hs
  rw [List.mem_filterMap] at hvs
  obtain ⟨nv, hnv, hg⟩ := hvs
  rcases hfind : insertedParameters.find? (fun p => p.name == nv.1) with _ | p <;>
    rw [hfind] at hg
  · simp at hg
  · rcases hcell : nv.2 with _ | cell <;> rw [hcell] at hg
    · simp at hg
    · simp only [Option.some.injEq] at hg
      subst hg
      refine ⟨rfl, p, List.mem_of_find?_eq_some hfind, rfl, dsv, hdsv, nv, hnv, ?_⟩
      have := List.find?_some hfind
      simpa using this

theorem valuesToInsert_length (ins : List SynthesisParameterRow)
    (evs : List (Nat × List (String × Option ExtractedCell))) :
    (valuesToInsert ins evs).length =
      ((evs.map (fun dsv => (dsv.2.filter
        (fun nv => ins.any (fun p => p.name == nv.1) && nv.2.isSome)).length)).sum) := by
  simp only [valuesToInsert, List.length_flatten, List.map_map]
  congr 1
  apply List.map_congr_left
  intro dsv _
  simp only [Function.comp_apply]
  apply length_filterMap_eq_length_filter
  intro nv
  rcases hfind : ins.find? (fun p => p.name == nv.1) with _ | p <;>
    rcases hcell : nv.2 with _ | cell <;>
    simp only [← find?_isSome_eq_any, hfind, hcell, Option.isSome_none,
      Option.isSome_some, Bool.false_and, Bool.and_false, Bool.and_true,
      Bool.true_and]

/-- Claim C6: on its success path the analyze-sources endpoint only parses
the model's JSON answer and performs row inserts: it inserts exactly one
`synthesis_parameters` row per suggested parameter, with `is_system` true
and `display_order` equal to the parameter's index in the suggestion list;
and it inserts a `synthesis_values` row (with `is_verified` false) exactly
for those extracted cells that are present and whose parameter name exactly
matches the name of an inserted parameter — cells whose names do not match
produce no row, so the matrix is sparse. -/
theorem analyze_inserts_params_and_matching_values
    (userId : String) (pid : Nat) (db : DB) (o : AnalyzeOracles)
    (proj : ProjectRow) (response : String) (result : AnalysisResult)
    (hfind : db.projects.find? (fun p => p.id == pid && p.userId == userId) = some proj)
    (hsrc : (analyzeSources db pid).isEmpty = false)
    (hchat : o.chat = .ok (some response))
    (hparse : o.parse response = some result)
    (hpOk : o.paramInsertFails = false)
    (hvOk : o.valueInsertFails = false) :
    ∃ (P : List SynthesisParameterRow) (V : List SynthesisValueRow),
      (analyzePOST (some userId) (some pid) db o).db.synthesisParameters =
        db.synthesisParameters ++ P ∧
      (analyzePOST (some userId) (some pid) db o).db.synthesisValues =
        db.synthesisValues ++ V ∧
      (analyzePOST (some userId) (some pid) db o).response =
        .okAnalyze P.length V.length ∧
      P.length = result.suggestedParameters.length ∧
      (∀ i spi, result.suggestedParameters[i]? = some spi →
        P[i]? = (some ⟨db.nextId + i, pid, spi.name, spi.pType, spi.description,
          true, i⟩ : Option SynthesisParameterRow)) ∧
      (∀ v ∈ V, v.isVerified = false ∧
        ∃ p ∈ P, p.id = v.parameterId ∧
          ∃ dsv ∈ result.extractedValues, ∃ nv ∈ dsv.2, p.name = nv.1) ∧
      V.length = ((result.extractedValues.map (fun dsv => (dsv.2.filter
        (fun nv => P.any (fun pp => pp.name == nv.1) && nv.2.isSome)).length)).sum) := by
  refine ⟨parametersToInsert pid db.nextId result.suggestedParameters,
    valuesToInsert (parametersToInsert pid db.nextId result.suggestedParameters)
      result.extractedValues, ?_, ?_, ?_, ?_, ?_, ?_, ?_⟩
  · simp only [analyzePOST, hfind, hsrc, hchat, hparse, hpOk, hvOk,
      Bool.false_eq_true, if_false]
    split <;> rfl
  · simp only [analyzePOST, hfind, hsrc, hchat, hparse, hpOk, hvOk,
      Bool.false_eq_true, if_false]
    split
    · rename_i hempty
      rw [List.isEmpty_iff] at hempty
      rw [hempty]
      simp
    · rfl
  · simp only [analyzePOST, hfind, hsrc, hchat, hparse, hpOk, hvOk,
      Bool.false_eq_true, if_false]
    split <;> rfl
  · exact parametersToInsert_length _ _ _
  · intro i spi h
    exact parametersToInsert_getElem pid db.nextId result.suggestedParameters i spi h
  · intro v hv
    exact valuesToInsert_mem _ _ v hv
  · exact valuesToInsert_length _ _

/-- Witness for `analyze_inserts_params_and_matching_values`: a concrete run
inserting two parameter rows and exactly one value row (the `Venue` cell
matches no parameter and the `Author` cell is null, so neither produces a
row). -/
theorem analyze_inserts_params_and_matching_values_witness :
    (oneDupDB.projects.find? (fun p => p.id == 1 && p.userId == "u") =
        some ⟨1, "u"⟩ ∧
      (analyzeSources oneDupDB 1).isEmpty = false ∧
      wAnalyzeOracles.chat = .ok (some "resp") ∧
      wAnalyzeOracles.parse "resp" = some wAnalysisResult ∧
      wAnalyzeOracles.paramInsertFails = false ∧
      wAnalyzeOracles.valueInsertFails = false ∧
      (analyzePOST (some "u") (some 1) oneDupDB wAnalyzeOracles).response =
        .okAnalyze 2 1) ∧
    (∃ (P : List SynthesisParameterRow) (V : List SynthesisValueRow),
      (analyzePOST (some "u") (some 1) oneDupDB wAnalyzeOracles).db.synthesisParameters =
        oneDupDB.synthesisParameters ++ P ∧
      (analyzePOST (some "u") (some 1) oneDupDB wAnalyzeOracles).db.synthesisValues =
        oneDupDB.synthesisValues ++ V ∧
      (analyzePOST (some "u") (some 1) oneDupDB wAnalyzeOracles).response =
        .okAnalyze P.length V.length ∧
      P.length = wAnalysisResult.suggestedParameters.length ∧
      (∀ i spi, wAnalysisResult.suggestedParameters[i]? = some spi →
        P[i]? = (some ⟨oneDupDB.nextId + i, 1, spi.name, spi.pType, spi.description,
          true, i⟩ : Option SynthesisParameterRow)) ∧
      (∀ v ∈ V, v.isVerified = false ∧
        ∃ p ∈ P, p.id = v.parameterId ∧
          ∃ dsv ∈ wAnalysisResult.extractedValues, ∃ nv ∈ dsv.2, p.name = nv.1) ∧
      V.length = ((wAnalysisResult.extractedValues.map (fun dsv => (dsv.2.filter
        (fun nv => P.any (fun pp => pp.name == nv.1) && nv.2.isSome)).length)).sum)) :=
  ⟨⟨by decide, by decide, rfl, rfl, rfl, rfl, by decide⟩,
   analyze_inserts_params_and_matching_values "u" 1 oneDupDB wAnalyzeOracles
     ⟨1, "u"⟩ "resp" wAnalysisResult (by decide) (by decide) rfl rfl rfl rfl⟩

/-- Counterexample to claim C2 as stated: a complete, successful file
ingestion — which did generate summaries — performs no write to
`synthesis_parameters` or `synthesis_values`; structured parameter
extraction does not happen as part of the ingestion sequence. -/
theorem ingestion_no_parameter_extraction_counterexample :
    ((uploadPOST (some "u") (some 1) (some sampleFile) sampleDB
        sampleUploadOracles).events.any summaryPhaseEvent) = true ∧
    ((uploadPOST (some "u") (some 1) (some sampleFile) sampleDB
        sampleUploadOracles).events.any isSynthesisWrite) = false ∧
    (uploadPOST (some "u") (some 1) (some sampleFile) sampleDB
        sampleUploadOracles).db.synthesisParameters =
      sampleDB.synthesisParameters ∧
    (uploadPOST (some "u") (some 1) (some sampleFile) sampleDB
        sampleUploadOracles).db.synthesisValues = sampleDB.synthesisValues ∧
    (uploadPOST (some "u") (some 1) (some sampleFile) sampleDB
        sampleUploadOracles).response.code = 200 := by
  decide

/-- Claim C2 (amended): for every file or URL intake the handler performs
its steps in order — for a file: intake (storage upload), text extraction,
data-source insert, summary generation, status update; for a URL: the fetch
(which is both intake and extraction of the page), data-source insert,
summary generation, status update — and never writes the synthesis tables;
structured parameter extraction is performed by the separate analyze-sources
endpoint, which reads only data sources already marked `processed` (hence it
runs after ingestion, not as part of it). -/
theorem ingestion_order_and_separate_analysis :
    (∀ authUser projectId file db o,
      ((uploadPOST authUser projectId file db o).events.all
        (fun e => !isSynthesisWrite e)) = true) ∧
    (∀ authUser body db o,
      ((urlPOST authUser body db o).events.all
        (fun e => !isSynthesisWrite e)) = true) ∧
    (∀ userId pid f db (o : UploadOracles) (proj : ProjectRow),
      db.projects.find? (fun p => p.id == pid && p.userId == userId) = some proj →
      o.storageUploadFails = false → o.insertDataSourceFails = false →
      ∃ fn extEv sumEv row,
        (uploadPOST (some userId) (some pid) (some f) db o).events =
          [.dbSelect "projects", .storageUpload fn] ++ extEv ++
            [.insertDataSource row true] ++ sumEv ++
            [.updateDataSourceStatus row.id .processed] ∧
        (∀ e ∈ extEv, extractionCallEvent e = true) ∧
        (∀ e ∈ sumEv, summaryPhaseEvent e = true)) ∧
    (∀ userId pid url page db (o : UrlOracles) (proj : ProjectRow),
      o.urlParses = true →
      db.projects.find? (fun p => p.id == pid && p.userId == userId) = some proj →
      singleRow (db.dataSources.filter
        (fun s => s.projectId == pid && s.contentUrl == url)) =
        (none : Option DataSourceRow) →
      o.fetched = .ok page →
      (page.extractedText == "" || page.extractedText.length < 50) = false →
      o.insertDataSourceFails = false →
      ∃ sumEv row,
        (urlPOST (some userId) (some (pid, url)) db o).events =
          [.dbSelect "projects", .dbSelect "data_sources", .fetchUrl url,
           .insertDataSource row true] ++ sumEv ++
            [.updateDataSourceStatus row.id .processed] ∧
        (∀ e ∈ sumEv, summaryPhaseEvent e = true)) ∧
    (∀ db pid, ∀ s ∈ analyzeSources db pid, s.status = .processed) := by
  refine ⟨?_, ?_, ?_, ?_, ?_⟩
  · intro authUser projectId file db o
    exact uploadPOST_events_all authUser projectId file db o _
      (fun t => rfl) (fun s => rfl) rfl rfl (fun row b hst => rfl)
      (fun c => rfl) (fun r => rfl) (fun i => rfl)
  · intro authUser body db o
    exact urlPOST_events_all authUser body db o _
      (fun t => rfl) (fun u => rfl) (fun row b hst => rfl)
      (fun c => rfl) (fun r => rfl) (fun i => rfl)
  · intro userId pid f db o proj hfind hst hins
    rw [uploadPOST_success_eq userId pid f db o proj hfind hst hins]
    simp only [uploadSuccess]
    refine ⟨_, (extractFileText f o).2, _, _, rfl,
      extractFileText_events_kinds f o, ?_⟩
    intro e he
    split at he
    · exact generateSummaries_events_kinds _ _ _ _ _ _ he
    · simp at he
  · intro userId pid url page db o proj hurl hfind hdup hfetch hlen hins
    rw [urlPOST_success_eq userId pid url page db o proj hurl hfind hdup hfetch
      hlen hins]
    simp only [urlSuccess]
    refine ⟨_, _, rfl, ?_⟩
    intro e he
    exact generateSummaries_events_kinds _ _ _ _ _ _ he
  · intro db pid s hs
    rw [analyzeSources, List.mem_filter] at hs
    have h2 := hs.2
    simp only [Bool.and_eq_true, beq_iff_eq] at h2
    exact h2.2

/-- Witness for `ingestion_order_and_separate_analysis`: the ordered
decomposition of a concrete successful file upload's trace and of a
concrete successful URL intake's trace. -/
theorem ingestion_order_and_separate_analysis_witness :
    (sampleDB.projects.find? (fun p => p.id == 1 && p.userId == "u") =
      some ⟨1, "u"⟩ ∧
     sampleUploadOracles.storageUploadFails = false ∧
     sampleUploadOracles.insertDataSourceFails = false) ∧
    (∃ fn extEv sumEv row,
      (uploadPOST (some "u") (some 1) (some sampleFile) sampleDB
          sampleUploadOracles).events =
        [.dbSelect "projects", .storageUpload fn] ++ extEv ++
          [.insertDataSource row true] ++ sumEv ++
          [.updateDataSourceStatus row.id .processed] ∧
      (∀ e ∈ extEv, extractionCallEvent e = true) ∧
      (∀ e ∈ sumEv, summaryPhaseEvent e = true)) ∧
    (dupUrlOracles.urlParses = true ∧
     singleRow (sampleDB.dataSources.filter
       (fun s => s.projectId == 1 && s.contentUrl == "http://y")) =
       (none : Option DataSourceRow) ∧
     dupUrlOracles.fetched = .ok
       ⟨"Page", "0123456789012345678901234567890123456789012345678901234567890"⟩ ∧
     dupUrlOracles.insertDataSourceFails = false) ∧
    (∃ sumEv row,
      (urlPOST (some "u") (some (1, "http://y")) sampleDB dupUrlOracles).events =
        [.dbSelect "projects", .dbSelect "data_sources", .fetchUrl "http://y",
         .insertDataSource row true] ++ sumEv ++
          [.updateDataSourceStatus row.id .processed] ∧
      (∀ e ∈ sumEv, summaryPhaseEvent e = true)) :=
  ⟨⟨by decide, rfl, rfl⟩,
   ingestion_order_and_separate_analysis.2.2.1 "u" 1 sampleFile sampleDB
     sampleUploadOracles ⟨1, "u"⟩ (by decide) rfl rfl,
   ⟨rfl, by decide, rfl, rfl⟩,
   ingestion_order_and_separate_analysis.2.2.2.1 "u" 1 "http://y"
     ⟨"Page", "0123456789012345678901234567890123456789012345678901234567890"⟩
     sampleDB dupUrlOracles ⟨1, "u"⟩ rfl (by decide) (by decide) rfl (by decide) rfl⟩
